import Mathlib

/-! Mackie Control codec.

A shallow embedding of `MackieControl.h` / `MackieControl.cpp`: the four allow-lists, the
classifier predicates of `Message`, the SysEx field decoders and the construction factories.

Conventions
* `uint8_t` is `Byte = Fin 256`; C++ `int` is `Int` (no claim here depends on `int` overflow);
  `uint32_t` is a natural number.
* An enumeration with a fixed underlying type can hold every value of that type, so each
  `enum class` is its underlying type and the enumerators are named constants.
* A decoder returns `Option`: `none` stands for a read outside the SysEx payload (undefined
  behaviour in the source), `some r` for a normal return of `r`.
* A returned data pointer is the payload offset it points at (`none` is the null pointer).
* `getSysExDataSize()` is an `int`; where the source compares it with an expression that
  contains `sizeof`, the comparison is done in `size_t`, after the conversion `toSizeT`.
-/

namespace mackieControl

/-- An unsigned 8-bit value (`uint8_t`). -/
abbrev Byte := Fin 256

/-- An array `std::array<uint8_t, n>`. -/
abbrev ByteArrayN (n : Nat) := { l : List Byte // l.length = n }

/-- The value-initialised array `std::array<uint8_t, n>{}` (all zero). -/
def ByteArrayN.zero (n : Nat) : ByteArrayN n :=
  ⟨List.replicate n 0, List.length_replicate n 0⟩

/-! ## Enumerations (MackieControl.h) -/

/-- Codes of `enum class SysExMessage : uint8_t`. -/
abbrev SysExMessage := Byte

/-- Codes of `enum class VelocityMessage : uint8_t`. -/
abbrev VelocityMessage := Byte

/-- Codes of `enum class NoteMessage` (underlying type `int`). -/
abbrev NoteMessage := Int

/-- Codes of `enum class CCMessage` (underlying type `int`). -/
abbrev CCMessage := Int

/-- Codes of `enum class WheelType` (underlying type `int`). -/
abbrev WheelType := Int

/-- Codes of `enum class VPotLEDRingMode` (underlying type `int`). -/
abbrev VPotLEDRingMode := Int

def SysExMessage.DeviceQuery : SysExMessage := 0
def SysExMessage.HostConnectionQuery : SysExMessage := 1
def SysExMessage.HostConnectionReply : SysExMessage := 2
def SysExMessage.HostConnectionConfirmation : SysExMessage := 3
def SysExMessage.HostConnectionError : SysExMessage := 4
def SysExMessage.LCDBackLightSaver : SysExMessage := 11
def SysExMessage.TouchlessMovableFaders : SysExMessage := 12
def SysExMessage.FaderTouchSensitivity : SysExMessage := 14
def SysExMessage.GoOffline : SysExMessage := 15
def SysExMessage.TimeCodeBBTDisplay : SysExMessage := 16
def SysExMessage.Assignment7SegmentDisplay : SysExMessage := 17
def SysExMessage.LCD : SysExMessage := 18
def SysExMessage.VersionRequest : SysExMessage := 19
def SysExMessage.VersionReply : SysExMessage := 20
def SysExMessage.ChannelMeterMode : SysExMessage := 32
def SysExMessage.GlobalLCDMeterMode : SysExMessage := 33
def SysExMessage.AllFaderstoMinimum : SysExMessage := 97
def SysExMessage.AllLEDsOff : SysExMessage := 98
def SysExMessage.Reset : SysExMessage := 99

def VelocityMessage.Off : VelocityMessage := 0
def VelocityMessage.Flashing : VelocityMessage := 1
def VelocityMessage.On : VelocityMessage := 127

def NoteMessage.RECRDYCh1 : NoteMessage := 0
def NoteMessage.RECRDYCh2 : NoteMessage := 1
def NoteMessage.RECRDYCh3 : NoteMessage := 2
def NoteMessage.RECRDYCh4 : NoteMessage := 3
def NoteMessage.RECRDYCh5 : NoteMessage := 4
def NoteMessage.RECRDYCh6 : NoteMessage := 5
def NoteMessage.RECRDYCh7 : NoteMessage := 6
def NoteMessage.RECRDYCh8 : NoteMessage := 7
def NoteMessage.SOLOCh1 : NoteMessage := 8
def NoteMessage.SOLOCh2 : NoteMessage := 9
def NoteMessage.SOLOCh3 : NoteMessage := 10
def NoteMessage.SOLOCh4 : NoteMessage := 11
def NoteMessage.SOLOCh5 : NoteMessage := 12
def NoteMessage.SOLOCh6 : NoteMessage := 13
def NoteMessage.SOLOCh7 : NoteMessage := 14
def NoteMessage.SOLOCh8 : NoteMessage := 15
def NoteMessage.MUTECh1 : NoteMessage := 16
def NoteMessage.MUTECh2 : NoteMessage := 17
def NoteMessage.MUTECh3 : NoteMessage := 18
def NoteMessage.MUTECh4 : NoteMessage := 19
def NoteMessage.MUTECh5 : NoteMessage := 20
def NoteMessage.MUTECh6 : NoteMessage := 21
def NoteMessage.MUTECh7 : NoteMessage := 22
def NoteMessage.MUTECh8 : NoteMessage := 23
def NoteMessage.SELECTCh1 : NoteMessage := 24
def NoteMessage.SELECTCh2 : NoteMessage := 25
def NoteMessage.SELECTCh3 : NoteMessage := 26
def NoteMessage.SELECTCh4 : NoteMessage := 27
def NoteMessage.SELECTCh5 : NoteMessage := 28
def NoteMessage.SELECTCh6 : NoteMessage := 29
def NoteMessage.SELECTCh7 : NoteMessage := 30
def NoteMessage.SELECTCh8 : NoteMessage := 31
def NoteMessage.VSelectCh1 : NoteMessage := 32
def NoteMessage.VSelectCh2 : NoteMessage := 33
def NoteMessage.VSelectCh3 : NoteMessage := 34
def NoteMessage.VSelectCh4 : NoteMessage := 35
def NoteMessage.VSelectCh5 : NoteMessage := 36
def NoteMessage.VSelectCh6 : NoteMessage := 37
def NoteMessage.VSelectCh7 : NoteMessage := 38
def NoteMessage.VSelectCh8 : NoteMessage := 39
def NoteMessage.ASSIGNMENTTRACK : NoteMessage := 40
def NoteMessage.ASSIGNMENTSEND : NoteMessage := 41
def NoteMessage.ASSIGNMENTPANSURROUND : NoteMessage := 42
def NoteMessage.ASSIGNMENTPLUGIN : NoteMessage := 43
def NoteMessage.ASSIGNMENTEQ : NoteMessage := 44
def NoteMessage.ASSIGNMENTINSTRUMENT : NoteMessage := 45
def NoteMessage.FADERBANKSBANKLeft : NoteMessage := 46
def NoteMessage.FADERBANKSBANKRight : NoteMessage := 47
def NoteMessage.FADERBANKSCHANNELLeft : NoteMessage := 48
def NoteMessage.FADERBANKSCHANNELRight : NoteMessage := 49
def NoteMessage.FLIP : NoteMessage := 50
def NoteMessage.GLOBALVIEW : NoteMessage := 51
def NoteMessage.NAMEVALUE : NoteMessage := 52
def NoteMessage.SMPTEBEATS : NoteMessage := 53
def NoteMessage.Function1 : NoteMessage := 54
def NoteMessage.Function2 : NoteMessage := 55
def NoteMessage.Function3 : NoteMessage := 56
def NoteMessage.Function4 : NoteMessage := 57
def NoteMessage.Function5 : NoteMessage := 58
def NoteMessage.Function6 : NoteMessage := 59
def NoteMessage.Function7 : NoteMessage := 60
def NoteMessage.Function8 : NoteMessage := 61
def NoteMessage.GLOBALVIEWMIDITRACKS : NoteMessage := 62
def NoteMessage.GLOBALVIEWINPUTS : NoteMessage := 63
def NoteMessage.GLOBALVIEWAUDIOTRACKS : NoteMessage := 64
def NoteMessage.GLOBALVIEWAUDIOINSTRUMENT : NoteMessage := 65
def NoteMessage.GLOBALVIEWAUX : NoteMessage := 66
def NoteMessage.GLOBALVIEWBUSSES : NoteMessage := 67
def NoteMessage.GLOBALVIEWOUTPUTS : NoteMessage := 68
def NoteMessage.GLOBALVIEWUSER : NoteMessage := 69
def NoteMessage.SHIFT : NoteMessage := 70
def NoteMessage.OPTION : NoteMessage := 71
def NoteMessage.CONTROL : NoteMessage := 72
def NoteMessage.CMDALT : NoteMessage := 73
def NoteMessage.AUTOMATIONREADOFF : NoteMessage := 74
def NoteMessage.AUTOMATIONWRITE : NoteMessage := 75
def NoteMessage.AUTOMATIONTRIM : NoteMessage := 76
def NoteMessage.AUTOMATIONTOUCH : NoteMessage := 77
def NoteMessage.AUTOMATIONLATCH : NoteMessage := 78
def NoteMessage.GROUP : NoteMessage := 79
def NoteMessage.UTILITIESSAVE : NoteMessage := 80
def NoteMessage.UTILITIESUNDO : NoteMessage := 81
def NoteMessage.UTILITIESCANCEL : NoteMessage := 82
def NoteMessage.UTILITIESENTER : NoteMessage := 83
def NoteMessage.MARKER : NoteMessage := 84
def NoteMessage.NUDGE : NoteMessage := 85
def NoteMessage.CYCLE : NoteMessage := 86
def NoteMessage.DROP : NoteMessage := 87
def NoteMessage.REPLACE : NoteMessage := 88
def NoteMessage.CLICK : NoteMessage := 89
def NoteMessage.SOLO : NoteMessage := 90
def NoteMessage.REWIND : NoteMessage := 91
def NoteMessage.FASTFWD : NoteMessage := 92
def NoteMessage.STOP : NoteMessage := 93
def NoteMessage.PLAY : NoteMessage := 94
def NoteMessage.RECORD : NoteMessage := 95
def NoteMessage.CursorUp : NoteMessage := 96
def NoteMessage.CursorDown : NoteMessage := 97
def NoteMessage.CursorLeft : NoteMessage := 98
def NoteMessage.CursorRight : NoteMessage := 99
def NoteMessage.Zoom : NoteMessage := 100
def NoteMessage.Scrub : NoteMessage := 101
def NoteMessage.UserSwitchA : NoteMessage := 102
def NoteMessage.UserSwitchB : NoteMessage := 103
def NoteMessage.FaderTouchCh1 : NoteMessage := 104
def NoteMessage.FaderTouchCh2 : NoteMessage := 105
def NoteMessage.FaderTouchCh3 : NoteMessage := 106
def NoteMessage.FaderTouchCh4 : NoteMessage := 107
def NoteMessage.FaderTouchCh5 : NoteMessage := 108
def NoteMessage.FaderTouchCh6 : NoteMessage := 109
def NoteMessage.FaderTouchCh7 : NoteMessage := 110
def NoteMessage.FaderTouchCh8 : NoteMessage := 111
def NoteMessage.FaderTouchMaster : NoteMessage := 112
def NoteMessage.SMPTELED : NoteMessage := 113
def NoteMessage.BEATSLED : NoteMessage := 114
def NoteMessage.RUDESOLOLIGHT : NoteMessage := 115
def NoteMessage.Relayclick : NoteMessage := 116

def CCMessage.VPot1 : CCMessage := 16
def CCMessage.VPot2 : CCMessage := 17
def CCMessage.VPot3 : CCMessage := 18
def CCMessage.VPot4 : CCMessage := 19
def CCMessage.VPot5 : CCMessage := 20
def CCMessage.VPot6 : CCMessage := 21
def CCMessage.VPot7 : CCMessage := 22
def CCMessage.VPot8 : CCMessage := 23
def CCMessage.ExternalController : CCMessage := 46
def CCMessage.VPotLEDRing1 : CCMessage := 48
def CCMessage.VPotLEDRing2 : CCMessage := 49
def CCMessage.VPotLEDRing3 : CCMessage := 50
def CCMessage.VPotLEDRing4 : CCMessage := 51
def CCMessage.VPotLEDRing5 : CCMessage := 52
def CCMessage.VPotLEDRing6 : CCMessage := 53
def CCMessage.VPotLEDRing7 : CCMessage := 54
def CCMessage.VPotLEDRing8 : CCMessage := 55
def CCMessage.JogWheel : CCMessage := 60
def CCMessage.TimeCodeBBTDisplay1 : CCMessage := 64
def CCMessage.TimeCodeBBTDisplay2 : CCMessage := 65
def CCMessage.TimeCodeBBTDisplay3 : CCMessage := 66
def CCMessage.TimeCodeBBTDisplay4 : CCMessage := 67
def CCMessage.TimeCodeBBTDisplay5 : CCMessage := 68
def CCMessage.TimeCodeBBTDisplay6 : CCMessage := 69
def CCMessage.TimeCodeBBTDisplay7 : CCMessage := 70
def CCMessage.TimeCodeBBTDisplay8 : CCMessage := 71
def CCMessage.TimeCodeBBTDisplay9 : CCMessage := 72
def CCMessage.TimeCodeBBTDisplay10 : CCMessage := 73
def CCMessage.Assignment7SegmentDisplay1 : CCMessage := 74
def CCMessage.Assignment7SegmentDisplay2 : CCMessage := 75
def CCMessage.Assignment7SegmentDisplay3 : CCMessage := 76

def WheelType.CW : WheelType := 0
def WheelType.CCW : WheelType := 1

def VPotLEDRingMode.SingleDotMode : VPotLEDRingMode := 0
def VPotLEDRingMode.BoostCutMode : VPotLEDRingMode := 1
def VPotLEDRingMode.WrapMode : VPotLEDRingMode := 2
def VPotLEDRingMode.SpreadMode : VPotLEDRingMode := 3

/-- The integral conversion of an `int` to `uint8_t`: reduction modulo 256. -/
def toUInt8 (v : Int) : Byte :=
  ⟨(v % 256).toNat, by omega⟩

/-- The conversion `static_cast<E>(mes)` of an `int` to an enumeration `E` whose underlying type
is `uint8_t`: the value is first converted to `uint8_t`. -/
def castToByteEnum (mes : Int) : Byte :=
  toUInt8 mes

/-- The `int` value of a character literal of the source. -/
def charCode (c : Char) : Int :=
  (c.toNat : Int)

/-! ## Allow-lists (MackieControl.cpp, lines 15-135) -/

def validSysExMessage : List SysExMessage :=
  [SysExMessage.DeviceQuery, SysExMessage.HostConnectionQuery, SysExMessage.HostConnectionReply,
   SysExMessage.HostConnectionConfirmation, SysExMessage.HostConnectionError,
   SysExMessage.LCDBackLightSaver, SysExMessage.TouchlessMovableFaders,
   SysExMessage.FaderTouchSensitivity, SysExMessage.GoOffline, SysExMessage.TimeCodeBBTDisplay,
   SysExMessage.Assignment7SegmentDisplay, SysExMessage.LCD, SysExMessage.VersionRequest,
   SysExMessage.VersionReply, SysExMessage.ChannelMeterMode, SysExMessage.GlobalLCDMeterMode,
   SysExMessage.AllFaderstoMinimum, SysExMessage.AllLEDsOff, SysExMessage.Reset]

/-- The overload `isValidSysExMessage(SysExMessage)`: `std::find` over the array. -/
def isValidSysExMessageTyped (mes : SysExMessage) : Bool :=
  validSysExMessage.contains mes

/-- The overload `isValidSysExMessage(int)`. -/
def isValidSysExMessage (mes : Int) : Bool :=
  isValidSysExMessageTyped (castToByteEnum mes)

def validVelocityMessage : List VelocityMessage :=
  [VelocityMessage.Off, VelocityMessage.Flashing, VelocityMessage.On]

/-- The overload `isValidVelocityMessage(VelocityMessage)`. -/
def isValidVelocityMessageTyped (mes : VelocityMessage) : Bool :=
  validVelocityMessage.contains mes

/-- The overload `isValidVelocityMessage(int)`. -/
def isValidVelocityMessage (mes : Int) : Bool :=
  isValidVelocityMessageTyped (castToByteEnum mes)

def validNoteMessage : List NoteMessage :=
  [NoteMessage.RECRDYCh1, NoteMessage.RECRDYCh2, NoteMessage.RECRDYCh3, NoteMessage.RECRDYCh4,
   NoteMessage.RECRDYCh5, NoteMessage.RECRDYCh6, NoteMessage.RECRDYCh7, NoteMessage.RECRDYCh8,
   NoteMessage.SOLOCh1, NoteMessage.SOLOCh2, NoteMessage.SOLOCh3, NoteMessage.SOLOCh4,
   NoteMessage.SOLOCh5, NoteMessage.SOLOCh6, NoteMessage.SOLOCh7, NoteMessage.SOLOCh8,
   NoteMessage.MUTECh1, NoteMessage.MUTECh2, NoteMessage.MUTECh3, NoteMessage.MUTECh4,
   NoteMessage.MUTECh5, NoteMessage.MUTECh6, NoteMessage.MUTECh7, NoteMessage.MUTECh8,
   NoteMessage.SELECTCh1, NoteMessage.SELECTCh2, NoteMessage.SELECTCh3, NoteMessage.SELECTCh4,
   NoteMessage.SELECTCh5, NoteMessage.SELECTCh6, NoteMessage.SELECTCh7, NoteMessage.SELECTCh8,
   NoteMessage.VSelectCh1, NoteMessage.VSelectCh2, NoteMessage.VSelectCh3, NoteMessage.VSelectCh4,
   NoteMessage.VSelectCh5, NoteMessage.VSelectCh6, NoteMessage.VSelectCh7, NoteMessage.VSelectCh8,
   NoteMessage.ASSIGNMENTTRACK, NoteMessage.ASSIGNMENTSEND, NoteMessage.ASSIGNMENTPANSURROUND,
   NoteMessage.ASSIGNMENTPLUGIN, NoteMessage.ASSIGNMENTEQ, NoteMessage.ASSIGNMENTINSTRUMENT,
   NoteMessage.FADERBANKSBANKLeft, NoteMessage.FADERBANKSBANKRight,
   NoteMessage.FADERBANKSCHANNELLeft, NoteMessage.FADERBANKSCHANNELRight, NoteMessage.FLIP,
   NoteMessage.GLOBALVIEW, NoteMessage.NAMEVALUE, NoteMessage.SMPTEBEATS, NoteMessage.Function1,
   NoteMessage.Function2, NoteMessage.Function3, NoteMessage.Function4, NoteMessage.Function5,
   NoteMessage.Function6, NoteMessage.Function7, NoteMessage.Function8,
   NoteMessage.GLOBALVIEWMIDITRACKS, NoteMessage.GLOBALVIEWINPUTS,
   NoteMessage.GLOBALVIEWAUDIOTRACKS, NoteMessage.GLOBALVIEWAUDIOINSTRUMENT,
   NoteMessage.GLOBALVIEWAUX, NoteMessage.GLOBALVIEWBUSSES, NoteMessage.GLOBALVIEWOUTPUTS,
   NoteMessage.GLOBALVIEWUSER, NoteMessage.SHIFT, NoteMessage.OPTION, NoteMessage.CONTROL,
   NoteMessage.CMDALT, NoteMessage.AUTOMATIONREADOFF, NoteMessage.AUTOMATIONWRITE,
   NoteMessage.AUTOMATIONTRIM, NoteMessage.AUTOMATIONTOUCH, NoteMessage.AUTOMATIONLATCH,
   NoteMessage.GROUP, NoteMessage.UTILITIESSAVE, NoteMessage.UTILITIESUNDO,
   NoteMessage.UTILITIESCANCEL, NoteMessage.UTILITIESENTER, NoteMessage.MARKER, NoteMessage.NUDGE,
   NoteMessage.CYCLE, NoteMessage.DROP, NoteMessage.REPLACE, NoteMessage.CLICK, NoteMessage.SOLO,
   NoteMessage.REWIND, NoteMessage.FASTFWD, NoteMessage.STOP, NoteMessage.PLAY, NoteMessage.RECORD,
   NoteMessage.CursorUp, NoteMessage.CursorDown, NoteMessage.CursorLeft, NoteMessage.CursorRight,
   NoteMessage.Zoom, NoteMessage.Scrub, NoteMessage.UserSwitchA, NoteMessage.UserSwitchB,
   NoteMessage.FaderTouchCh1, NoteMessage.FaderTouchCh2, NoteMessage.FaderTouchCh3,
   NoteMessage.FaderTouchCh4, NoteMessage.FaderTouchCh5, NoteMessage.FaderTouchCh6,
   NoteMessage.FaderTouchCh7, NoteMessage.FaderTouchCh8, NoteMessage.FaderTouchMaster,
   NoteMessage.SMPTELED, NoteMessage.BEATSLED, NoteMessage.RUDESOLOLIGHT, NoteMessage.Relayclick]

/-- The overload `isValidNoteMessage(NoteMessage)`. -/
def isValidNoteMessageTyped (mes : NoteMessage) : Bool :=
  validNoteMessage.contains mes

/-- The overload `isValidNoteMessage(int)`; the cast to an `int`-based enumeration keeps the
value. -/
def isValidNoteMessage (mes : Int) : Bool :=
  isValidNoteMessageTyped mes

def validCCMessage : List CCMessage :=
  [CCMessage.VPot1, CCMessage.VPot2, CCMessage.VPot3, CCMessage.VPot4, CCMessage.VPot5,
   CCMessage.VPot6, CCMessage.VPot7, CCMessage.VPot8, CCMessage.ExternalController,
   CCMessage.VPotLEDRing1, CCMessage.VPotLEDRing2, CCMessage.VPotLEDRing3, CCMessage.VPotLEDRing4,
   CCMessage.VPotLEDRing5, CCMessage.VPotLEDRing6, CCMessage.VPotLEDRing7, CCMessage.VPotLEDRing8,
   CCMessage.JogWheel, CCMessage.TimeCodeBBTDisplay1, CCMessage.TimeCodeBBTDisplay2,
   CCMessage.TimeCodeBBTDisplay3, CCMessage.TimeCodeBBTDisplay4, CCMessage.TimeCodeBBTDisplay5,
   CCMessage.TimeCodeBBTDisplay6, CCMessage.TimeCodeBBTDisplay7, CCMessage.TimeCodeBBTDisplay8,
   CCMessage.TimeCodeBBTDisplay9, CCMessage.TimeCodeBBTDisplay10,
   CCMessage.Assignment7SegmentDisplay1, CCMessage.Assignment7SegmentDisplay2,
   CCMessage.Assignment7SegmentDisplay3]

/-- The overload `isValidCCMessage(CCMessage)`. -/
def isValidCCMessageTyped (mes : CCMessage) : Bool :=
  validCCMessage.contains mes

/-- The overload `isValidCCMessage(int)`; the cast to an `int`-based enumeration keeps the
value. -/
def isValidCCMessage (mes : Int) : Bool :=
  isValidCCMessageTyped mes

/-! ## The transport message -/

/-- Modelled from the spec: the transport message `MidiMessage` of `MidiMessage.h`, which is not
among the sources. Section 6 of the specification lists what the codec consumes from it: five
type tests and the accessors for payload bytes, note number, velocity, controller number and
value, channel, pitch-wheel value and channel-pressure value. A transport message is recorded
here as the results of exactly these observations, one field per capability; no relation between
the fields is assumed (in particular the type tests are not assumed exclusive). The velocity is a
`uint8_t`, as in the call `MidiMessage::noteOn(1, static_cast<int>(type), static_cast<uint8_t>(vel))`
of `createNote`; the payload is a sequence of `uint8_t`; the other accessors return `int`.
The file header of the sources names JUCE as the transport library. Its `getSysExDataSize()`
is the raw size of the message minus the two framing bytes `0xF0` and `0xF7`, so the
system-exclusive message made of the status byte `0xF0` alone reports the size -1 and has no
payload byte. The field `isLoneStatusByte` records that case; it has no effect on a message
that has payload bytes. -/
structure MidiMessage where
  /-- Result of `isSysEx()`. -/
  isSysEx : Bool
  /-- Bytes behind `getSysExData()`; their number is `getSysExDataSize()`. -/
  getSysExData : List Byte
  /-- Result of `isNoteOnOrOff()`. -/
  isNoteOnOrOff : Bool
  /-- Result of `getNoteNumber()`. -/
  getNoteNumber : Int
  /-- Result of `getVelocity()`. -/
  getVelocity : Byte
  /-- Result of `isController()`. -/
  isController : Bool
  /-- Result of `getControllerNumber()`. -/
  getControllerNumber : Int
  /-- Result of `getControllerValue()`. -/
  getControllerValue : Int
  /-- Result of `isPitchWheel()`. -/
  isPitchWheel : Bool
  /-- Result of `getChannel()`. -/
  getChannel : Int
  /-- Result of `getPitchWheelValue()`. -/
  getPitchWheelValue : Int
  /-- Result of `isChannelPressure()`. -/
  isChannelPressure : Bool
  /-- Result of `getChannelPressureValue()`. -/
  getChannelPressureValue : Int
  /-- True when the raw message is the status byte `0xF0` alone. -/
  isLoneStatusByte : Bool
  deriving DecidableEq, Repr

/-- The accessor `getSysExDataSize()`: the number of payload bytes, and -1 for the message made
of the status byte `0xF0` alone. -/
def MidiMessage.getSysExDataSize (m : MidiMessage) : Int :=
  if m.isLoneStatusByte = true ∧ m.getSysExData = [] then -1
  else (m.getSysExData.length : Int)

/-- The conversion of an `int` to `size_t` (64 bits), which the usual arithmetic conversions
apply to `getSysExDataSize()` when it is compared with an expression that contains `sizeof`: a
non-negative value is kept, a negative value `v` becomes `2^64 + v`. -/
def toSizeT (v : Int) : Nat :=
  if 0 ≤ v then v.toNat else (v + 2 ^ 64).toNat

/-- Modelled from the spec: the default-constructed transport message, "no message"
(`MidiMessage.h` is not among the sources). It carries no payload byte and is no note,
controller, pitch-wheel or channel-pressure event. Whether the transport library reports its
empty message as system-exclusive is not fixed by the specification and is left as the
parameter `sysExFlag`. -/
def MidiMessage.empty (sysExFlag : Bool) : MidiMessage :=
  MidiMessage.mk sysExFlag [] false 0 0 false 0 0 false 0 0 false 0 false

/-- Modelled from the spec: the constructor `build-sysex(bytes, length)` of section 6,
`MidiMessage::createSysExMessage`: a system-exclusive message whose payload is a copy of the
given bytes. -/
def MidiMessage.createSysExMessage (bytes : List Byte) : MidiMessage :=
  MidiMessage.mk true bytes false 0 0 false 0 0 false 0 0 false 0 false

/-- Modelled from the spec: the system-exclusive transport message whose raw bytes are the status
byte `0xF0` alone, as the raw-data constructor of the transport library builds it from one byte
(`MidiMessage.h` is not among the sources). It has no payload byte and its
`getSysExDataSize()` is -1. -/
def MidiMessage.loneStatusByte : MidiMessage :=
  MidiMessage.mk true [] false 0 0 false 0 0 false 0 0 false 0 true

/-- Modelled from the spec: the constructor `build-note-on(channel, note, velocity)` of
section 6, `MidiMessage::noteOn`. -/
def MidiMessage.noteOn (channel noteNumber : Int) (velocity : Byte) : MidiMessage :=
  MidiMessage.mk false [] true noteNumber velocity false 0 0 false channel 0 false 0 false

/-- Modelled from the spec: the constructor `build-controller-event(channel, number, value)` of
section 6, `MidiMessage::controllerEvent`. -/
def MidiMessage.controllerEvent (channel controllerType value : Int) : MidiMessage :=
  MidiMessage.mk false [] false 0 0 true controllerType value false channel 0 false 0 false

/-- Modelled from the spec: the constructor `build-pitch-wheel(channel, value)` of section 6,
`MidiMessage::pitchWheel`. -/
def MidiMessage.pitchWheel (channel position : Int) : MidiMessage :=
  MidiMessage.mk false [] false 0 0 false 0 0 true channel position false 0 false

/-- Modelled from the spec: the constructor `build-channel-pressure(channel, packed-value)` of
section 6, `MidiMessage::channelPressureChange`; the accessor `get-channel-pressure-value`
returns the packed value. -/
def MidiMessage.channelPressureChange (channel pressure : Int) : MidiMessage :=
  MidiMessage.mk false [] false 0 0 false 0 0 false channel 0 true pressure false

/-! ## The value type `Message` -/

/-- The class `Message`: a wrapper of one `MidiMessage`. -/
structure Message where
  /-- The private member `message`. -/
  message : MidiMessage
  deriving DecidableEq, Repr

/-- The default constructor `Message() = default`, which default-constructs the member. -/
def Message.default (sysExFlag : Bool) : Message :=
  ⟨MidiMessage.empty sysExFlag⟩

/-- `Message::isSysEx` (lines 169-177). -/
def Message.isSysEx (self : Message) : Bool :=
  if self.message.isSysEx then
    if h : self.message.getSysExDataSize ≥ 5 then
      isValidSysExMessage ((self.message.getSysExData.get ⟨4, by
        unfold MidiMessage.getSysExDataSize at h; split at h <;> omega⟩).val : Int)
    else false
  else false

/-- `Message::isNote` (lines 179-185). -/
def Message.isNote (self : Message) : Bool :=
  if self.message.isNoteOnOrOff then
    isValidNoteMessage self.message.getNoteNumber &&
      isValidVelocityMessage (self.message.getVelocity.val : Int)
  else false

/-- `Message::isCC` (lines 187-192). -/
def Message.isCC (self : Message) : Bool :=
  if self.message.isController then
    isValidCCMessage self.message.getControllerNumber
  else false

/-- `Message::isPitchWheel` (lines 194-200). -/
def Message.isPitchWheel (self : Message) : Bool :=
  if self.message.isPitchWheel then
    let channel := self.message.getChannel
    decide (channel ≥ 1) && decide (channel ≤ 9)
  else false

/-- `Message::isChannelPressure` (lines 202-207). -/
def Message.isChannelPressure (self : Message) : Bool :=
  if self.message.isChannelPressure then true else false

/-- `Message::isMackieControl` (lines 209-215). -/
def Message.isMackieControl (self : Message) : Bool :=
  self.isSysEx || self.isNote || self.isCC || self.isPitchWheel || self.isChannelPressure

/-! ## Buffers, reads and views -/

/-- A data pointer into the SysEx payload of a message, recorded as the payload offset it
points at; `none` is the null pointer. -/
abbrev DataPtr := Option Nat

/-- `std::memcpy(&dst[off], src, n)` with `n` the length of `src`; at every call in the source
the `n` bytes lie inside `dst`. -/
def memcpy (dst : List Byte) (off : Nat) (src : List Byte) : List Byte :=
  dst.take off ++ src ++ dst.drop (off + src.length)

/-- The read `data[i]` of one payload byte; `none` when offset `i` is outside the payload. -/
def readByte (data : List Byte) (i : Nat) : Option Byte :=
  data[i]?

/-- The copy `std::memcpy(bytes.data(), &data[off], sizeof(bytes))` into a
`std::array<uint8_t, n>`; `none` when the `n` bytes are not all inside the payload. -/
def readArray (data : List Byte) (off n : Nat) : Option (ByteArrayN n) :=
  if h : off + n ≤ data.length then
    some ⟨(data.drop off).take n, by rw [List.length_take, List.length_drop]; omega⟩
  else none

/-- The address `&data[i]`, formed without reading; `none` when it is not an address of the
payload (`i` beyond one past the last byte). -/
def elemPtr (data : List Byte) (i : Nat) : Option DataPtr :=
  if i ≤ data.length then some (some i) else none

/-- The bytes a caller reads through a view `(ptr, size)` returned by a decoder of `self`:
`size` bytes from the payload offset `ptr`. `none` for the null pointer, a negative size or a
view that leaves the payload. -/
def Message.viewBytes (self : Message) (ptr : DataPtr) (size : Int) : Option (List Byte) :=
  match ptr with
  | none => none
  | some off =>
    if 0 ≤ size ∧ off + size.toNat ≤ self.message.getSysExData.length then
      some ((self.message.getSysExData.drop off).take size.toNat)
    else none

/-- Byte order of the object representation of a multi-byte integer. -/
inductive ByteOrder where
  | littleEndian
  | bigEndian
  deriving DecidableEq, Repr

/-- The four bytes of a `uint32_t` as `std::memcpy` sees them, lowest address first. -/
def uint32Bytes (order : ByteOrder) (v : Nat) : List Byte :=
  let b : Nat → Byte := fun i => ⟨(v / 256 ^ i) % 256, Nat.mod_lt _ (by decide)⟩
  match order with
  | ByteOrder.littleEndian => [b 0, b 1, b 2, b 3]
  | ByteOrder.bigEndian => [b 3, b 2, b 1, b 0]

/-! ## Decoders (MackieControl.cpp, lines 217-366) -/

/-- `Message::getSysExData` (lines 217-220): the command code; `static_cast<SysExMessage>(-1)`
when the payload has fewer than 5 bytes. -/
def Message.getSysExData (self : Message) : Option SysExMessage :=
  if self.message.getSysExDataSize < 5 then
    some (castToByteEnum (-1))
  else do
    let code ← readByte self.message.getSysExData 4
    pure code

/-- `Message::getHostConnectionQueryData` (lines 222-230): serial number and challenge code.
The guard `getSysExDataSize() < 5 + sizeof(std::array<uint8_t, 7>) + sizeof(uint32_t)` is a
comparison in `size_t`. -/
def Message.getHostConnectionQueryData (self : Message) : Option (ByteArrayN 7 × Nat) :=
  if toSizeT self.message.getSysExDataSize < 5 + 7 + 4 then
    some (ByteArrayN.zero 7, 0)
  else do
    let bytes ← readArray self.message.getSysExData 5 7
    let code ← readByte self.message.getSysExData (5 + 7)
    pure (bytes, code.val)

/-- `Message::getHostConnectionReplyData` (lines 232-242): serial number and response code.
The guard `getSysExDataSize() < 5 + sizeof(std::array<uint8_t, 7>) + sizeof(uint32_t)` is a
comparison in `size_t`. -/
def Message.getHostConnectionReplyData (self : Message) : Option (ByteArrayN 7 × Nat) :=
  if toSizeT self.message.getSysExDataSize < 5 + 7 + 4 then
    some (ByteArrayN.zero 7, 0)
  else do
    let bytes ← readArray self.message.getSysExData 5 7
    let code ← readByte self.message.getSysExData (5 + 7)
    pure (bytes, code.val)

/-- `Message::getHostConnectionConfirmationData` (lines 244-253): serial number. The guard
`getSysExDataSize() < 5 + sizeof(std::array<uint8_t, 7>)` is a comparison in `size_t`. -/
def Message.getHostConnectionConfirmationData (self : Message) : Option (ByteArrayN 7) :=
  if toSizeT self.message.getSysExDataSize < 5 + 7 then
    some (ByteArrayN.zero 7)
  else do
    let bytes ← readArray self.message.getSysExData 5 7
    pure bytes

/-- `Message::getHostConnectionErrorData` (lines 255-264): serial number. The guard
`getSysExDataSize() < 5 + sizeof(std::array<uint8_t, 7>)` is a comparison in `size_t`. -/
def Message.getHostConnectionErrorData (self : Message) : Option (ByteArrayN 7) :=
  if toSizeT self.message.getSysExDataSize < 5 + 7 then
    some (ByteArrayN.zero 7)
  else do
    let bytes ← readArray self.message.getSysExData 5 7
    pure bytes

/-- `Message::getLCDBackLightSaverData` (lines 266-273): state and timeout. -/
def Message.getLCDBackLightSaverData (self : Message) : Option (Byte × Byte) :=
  if self.message.getSysExDataSize < 5 + 1 then
    some (0, 0)
  else do
    let state ← readByte self.message.getSysExData 5
    let timeout ← if self.message.getSysExDataSize ≥ 7 then
        readByte self.message.getSysExData 6
      else some 0
    pure (state, timeout)

/-- `Message::getTouchlessMovableFadersData` (lines 275-281): state. -/
def Message.getTouchlessMovableFadersData (self : Message) : Option Byte :=
  if self.message.getSysExDataSize < 5 + 1 then
    some 0
  else do
    let state ← readByte self.message.getSysExData 5
    pure state

/-- `Message::getFaderTouchSensitivityData` (lines 283-290): channel number and value. -/
def Message.getFaderTouchSensitivityData (self : Message) : Option (Byte × Byte) :=
  if self.message.getSysExDataSize < 5 + 2 then
    some (0, 0)
  else do
    let channelNumber ← readByte self.message.getSysExData 5
    let value ← readByte self.message.getSysExData 6
    pure (channelNumber, value)

/-- `Message::getTimeCodeBBTDisplayData` (lines 292-299): data pointer and data size. -/
def Message.getTimeCodeBBTDisplayData (self : Message) : Option (DataPtr × Int) :=
  if self.message.getSysExDataSize < 5 + 1 + 1 + 1 then
    some (none, 0)
  else do
    let ptr ← elemPtr self.message.getSysExData 6
    pure (ptr, self.message.getSysExDataSize - 1 - 6)

/-- `Message::getAssignment7SegmentDisplayData` (lines 301-310): the two display bytes. The
guard `getSysExDataSize() < 5 + 1 + sizeof(std::array<uint8_t, 2>)` is a comparison in
`size_t`. -/
def Message.getAssignment7SegmentDisplayData (self : Message) : Option (ByteArrayN 2) :=
  if toSizeT self.message.getSysExDataSize < 5 + 1 + 2 then
    some (ByteArrayN.zero 2)
  else do
    let bytes ← readArray self.message.getSysExData 6 2
    pure bytes

/-- `Message::getLCDData` (lines 312-320): place, data pointer and data size. -/
def Message.getLCDData (self : Message) : Option (Byte × DataPtr × Int) :=
  if self.message.getSysExDataSize < 5 + 1 + 1 then
    some (0, none, 0)
  else do
    let place ← readByte self.message.getSysExData 5
    let ptr ← elemPtr self.message.getSysExData 6
    pure (place, ptr, self.message.getSysExDataSize - 6)

/-- `Message::getVersionReplyData` (lines 322-329): data pointer and data size. -/
def Message.getVersionReplyData (self : Message) : Option (DataPtr × Int) :=
  if self.message.getSysExDataSize < 5 + 1 + 1 then
    some (none, 0)
  else do
    let ptr ← elemPtr self.message.getSysExData 6
    pure (ptr, self.message.getSysExDataSize - 6)

/-- `Message::getChannelMeterModeData` (lines 331-338): channel number and mode. -/
def Message.getChannelMeterModeData (self : Message) : Option (Byte × Byte) :=
  if self.message.getSysExDataSize < 5 + 2 then
    some (0, 0)
  else do
    let channelNumber ← readByte self.message.getSysExData 5
    let mode ← readByte self.message.getSysExData 6
    pure (channelNumber, mode)

/-- `Message::getGlobalLCDMeterModeData` (lines 340-346): mode. -/
def Message.getGlobalLCDMeterModeData (self : Message) : Option Byte :=
  if self.message.getSysExDataSize < 5 + 1 then
    some 0
  else do
    let mode ← readByte self.message.getSysExData 5
    pure mode

/-- `Message::getNoteData` (lines 348-351): note code and velocity code. -/
def Message.getNoteData (self : Message) : NoteMessage × VelocityMessage :=
  (self.message.getNoteNumber, self.message.getVelocity)

/-- `Message::getCCData` (lines 353-356): controller code and value. -/
def Message.getCCData (self : Message) : CCMessage × Int :=
  (self.message.getControllerNumber, self.message.getControllerValue)

/-- `Message::getPitchWheelData` (lines 358-361): channel and fader value. -/
def Message.getPitchWheelData (self : Message) : Int × Int :=
  (self.message.getChannel, self.message.getPitchWheelValue)

/-- `Message::getChannelPressureData` (lines 363-366): meter channel and meter value; `/` and
`%` on `int` truncate towards zero. -/
def Message.getChannelPressureData (self : Message) : Int × Int :=
  let value := self.message.getChannelPressureValue
  (value.tdiv 16 + 1, value.tmod 16)

/-! ## Factories (MackieControl.cpp, lines 376-556) -/

/-- `Message::createDeviceQuery` (lines 376-381). -/
def Message.createDeviceQuery : Message :=
  let bytes : List Byte := List.replicate 5 0
  let bytes := bytes.set 4 SysExMessage.DeviceQuery
  ⟨MidiMessage.createSysExMessage bytes⟩

/-- `Message::createHostConnectionQuery` (lines 383-390). The byte order of the platform, which
fixes what `std::memcpy` copies out of `challengeCode`, is the parameter `order`. -/
def Message.createHostConnectionQuery (order : ByteOrder) (serialNum : ByteArrayN 7)
    (challengeCode : Nat) : Message :=
  let bytes : List Byte := List.replicate (5 + 7 + 4) 0
  let bytes := bytes.set 4 SysExMessage.HostConnectionQuery
  let bytes := memcpy bytes 5 serialNum.val
  let bytes := memcpy bytes (5 + 7) (uint32Bytes order challengeCode)
  ⟨MidiMessage.createSysExMessage bytes⟩

/-- `Message::createHostConnectionReply` (lines 392-399), with the byte order as for
`createHostConnectionQuery`. -/
def Message.createHostConnectionReply (order : ByteOrder) (serialNum : ByteArrayN 7)
    (responseCode : Nat) : Message :=
  let bytes : List Byte := List.replicate (5 + 7 + 4) 0
  let bytes := bytes.set 4 SysExMessage.HostConnectionReply
  let bytes := memcpy bytes 5 serialNum.val
  let bytes := memcpy bytes (5 + 7) (uint32Bytes order responseCode)
  ⟨MidiMessage.createSysExMessage bytes⟩

/-- `Message::createHostConnectionConfirmation` (lines 401-407). -/
def Message.createHostConnectionConfirmation (serialNum : ByteArrayN 7) : Message :=
  let bytes : List Byte := List.replicate (5 + 7) 0
  let bytes := bytes.set 4 SysExMessage.HostConnectionConfirmation
  let bytes := memcpy bytes 5 serialNum.val
  ⟨MidiMessage.createSysExMessage bytes⟩

/-- `Message::createHostConnectionError` (lines 409-415). -/
def Message.createHostConnectionError (serialNum : ByteArrayN 7) : Message :=
  let bytes : List Byte := List.replicate (5 + 7) 0
  let bytes := bytes.set 4 SysExMessage.HostConnectionError
  let bytes := memcpy bytes 5 serialNum.val
  ⟨MidiMessage.createSysExMessage bytes⟩

/-- `Message::createLCDBackLightSaver` (lines 417-432). -/
def Message.createLCDBackLightSaver (state timeout : Byte) : Message :=
  if state > 0 then
    let bytes : List Byte := List.replicate (5 + 2) 0
    let bytes := bytes.set 4 SysExMessage.LCDBackLightSaver
    let bytes := bytes.set 5 state
    let bytes := bytes.set 6 timeout
    ⟨MidiMessage.createSysExMessage bytes⟩
  else
    let bytes : List Byte := List.replicate (5 + 1) 0
    let bytes := bytes.set 4 SysExMessage.LCDBackLightSaver
    let bytes := bytes.set 5 state
    ⟨MidiMessage.createSysExMessage bytes⟩

/-- `Message::createTouchlessMovableFaders` (lines 434-440). -/
def Message.createTouchlessMovableFaders (state : Byte) : Message :=
  let bytes : List Byte := List.replicate (5 + 1) 0
  let bytes := bytes.set 4 SysExMessage.TouchlessMovableFaders
  let bytes := bytes.set 5 state
  ⟨MidiMessage.createSysExMessage bytes⟩

/-- `Message::createFaderTouchSensitivity` (lines 442-449). -/
def Message.createFaderTouchSensitivity (channelNumber value : Byte) : Message :=
  let bytes : List Byte := List.replicate (5 + 2) 0
  let bytes := bytes.set 4 SysExMessage.FaderTouchSensitivity
  let bytes := bytes.set 5 channelNumber
  let bytes := bytes.set 6 value
  ⟨MidiMessage.createSysExMessage bytes⟩

/-- `Message::createGoOffline` (lines 451-456). -/
def Message.createGoOffline : Message :=
  let bytes : List Byte := List.replicate 5 0
  let bytes := bytes.set 4 SysExMessage.GoOffline
  ⟨MidiMessage.createSysExMessage bytes⟩

/-- `Message::createTimeCodeBBTDisplay` (lines 458-466). The pair `(data, size)` of the source
is the byte sequence `data`, `size` being its length. -/
def Message.createTimeCodeBBTDisplay (data : List Byte) : Message :=
  let size := data.length
  let byteSize := 5 + 1 + size + 1
  let bytes : List Byte := List.replicate byteSize 0
  let bytes := bytes.set 4 SysExMessage.TimeCodeBBTDisplay
  let bytes := memcpy bytes 6 data
  ⟨MidiMessage.createSysExMessage bytes⟩

/-- `Message::createAssignment7SegmentDisplay` (lines 468-474). -/
def Message.createAssignment7SegmentDisplay (data : ByteArrayN 2) : Message :=
  let bytes : List Byte := List.replicate (5 + 1 + 2) 0
  let bytes := bytes.set 4 SysExMessage.Assignment7SegmentDisplay
  let bytes := memcpy bytes 6 data.val
  ⟨MidiMessage.createSysExMessage bytes⟩

/-- `Message::createLCD` (lines 476-485). The pair `(data, size)` of the source is the byte
sequence `data`, `size` being its length. -/
def Message.createLCD (place : Byte) (data : List Byte) : Message :=
  let size := data.length
  let byteSize := 5 + 1 + size
  let bytes : List Byte := List.replicate byteSize 0
  let bytes := bytes.set 4 SysExMessage.LCD
  let bytes := bytes.set 5 place
  let bytes := memcpy bytes 6 data
  ⟨MidiMessage.createSysExMessage bytes⟩

/-- `Message::createVersionRequest` (lines 487-492). -/
def Message.createVersionRequest : Message :=
  let bytes : List Byte := List.replicate 5 0
  let bytes := bytes.set 4 SysExMessage.VersionRequest
  ⟨MidiMessage.createSysExMessage bytes⟩

/-- `Message::createVersionReply` (lines 494-502). The pair `(data, size)` of the source is the
byte sequence `data`, `size` being its length. -/
def Message.createVersionReply (data : List Byte) : Message :=
  let size := data.length
  let byteSize := 5 + 1 + size
  let bytes : List Byte := List.replicate byteSize 0
  let bytes := bytes.set 4 SysExMessage.VersionReply
  let bytes := memcpy bytes 6 data
  ⟨MidiMessage.createSysExMessage bytes⟩

/-- `Message::createChannelMeterMode` (lines 504-511). -/
def Message.createChannelMeterMode (channelNumber mode : Byte) : Message :=
  let bytes : List Byte := List.replicate (5 + 2) 0
  let bytes := bytes.set 4 SysExMessage.ChannelMeterMode
  let bytes := bytes.set 5 channelNumber
  let bytes := bytes.set 6 mode
  ⟨MidiMessage.createSysExMessage bytes⟩

/-- `Message::createGlobalLCDMeterMode` (lines 513-519). -/
def Message.createGlobalLCDMeterMode (mode : Byte) : Message :=
  let bytes : List Byte := List.replicate (5 + 1) 0
  let bytes := bytes.set 4 SysExMessage.GlobalLCDMeterMode
  let bytes := bytes.set 5 mode
  ⟨MidiMessage.createSysExMessage bytes⟩

/-- `Message::createAllFaderstoMinimum` (lines 521-526). -/
def Message.createAllFaderstoMinimum : Message :=
  let bytes : List Byte := List.replicate 5 0
  let bytes := bytes.set 4 SysExMessage.AllFaderstoMinimum
  ⟨MidiMessage.createSysExMessage bytes⟩

/-- `Message::createAllLEDsOff` (lines 528-533). -/
def Message.createAllLEDsOff : Message :=
  let bytes : List Byte := List.replicate 5 0
  let bytes := bytes.set 4 SysExMessage.AllLEDsOff
  ⟨MidiMessage.createSysExMessage bytes⟩

/-- `Message::createReset` (lines 535-540). -/
def Message.createReset : Message :=
  let bytes : List Byte := List.replicate 5 0
  let bytes := bytes.set 4 SysExMessage.Reset
  ⟨MidiMessage.createSysExMessage bytes⟩

/-- `Message::createNote` (lines 542-544). -/
def Message.createNote (type : NoteMessage) (vel : VelocityMessage) : Message :=
  ⟨MidiMessage.noteOn 1 type vel⟩

/-- `Message::createCC` (lines 546-548). -/
def Message.createCC (type : CCMessage) (value : Int) : Message :=
  ⟨MidiMessage.controllerEvent 1 type value⟩

/-- `Message::createPitchWheel` (lines 550-552). -/
def Message.createPitchWheel (channel value : Int) : Message :=
  ⟨MidiMessage.pitchWheel channel value⟩

/-- `Message::createChannelPressure` (lines 554-556). -/
def Message.createChannelPressure (channel value : Int) : Message :=
  ⟨MidiMessage.channelPressureChange 1 ((channel - 1) * 16 + value)⟩

/-! ## Text transcoder (MackieControl.cpp, lines 558-571) -/

/-- `Message::charToMackie` (lines 558-564). The argument is the value of the `char`, whatever
the signedness of `char`; the comparisons and the arithmetic are done on `int`. -/
def Message.charToMackie (c : Int) : Byte :=
  if c ≥ charCode 'a' ∧ c ≤ charCode 'z' then toUInt8 ((c - charCode 'a') + 1)
  else if c ≥ charCode 'A' ∧ c ≤ charCode 'Z' then toUInt8 ((c - charCode 'A') + 1)
  else if c ≥ charCode '0' ∧ c ≤ charCode '9' then toUInt8 c
  else toUInt8 (charCode ' ')

/-- `Message::mackieToChar` (lines 566-571). The result is the value of the returned `char`;
every value returned lies in 0..127, so the conversion to `char` keeps it. -/
def Message.mackieToChar (c : Byte) : Int :=
  if ((c.val : Int) - 1) ≥ 0 ∧ ((c.val : Int) - 1) ≤ charCode 'Z' - charCode 'A' then
    charCode 'A' + ((c.val : Int) - 1)
  else if (c.val : Int) ≥ charCode '0' ∧ (c.val : Int) ≤ charCode '9' then (c.val : Int)
  else charCode ' '

/-! ## Value packers (MackieControl.cpp, lines 573-618) -/

/-- `Message::toLCDPlace` (lines 573-575); the `int` sum is converted to `uint8_t`. -/
def Message.toLCDPlace (lowerLine : Bool) (index : Byte) : Byte :=
  toUInt8 ((if lowerLine then 56 else 0) + (index.val : Int))

/-- `Message::toChannelMeterMode` (lines 577-582). -/
def Message.toChannelMeterMode (signalLEDEnabled peakHoldDisplayEnabled LCDLevelMeterEnabled : Bool) :
    Byte :=
  toUInt8 (((signalLEDEnabled.toNat <<< 0) + (peakHoldDisplayEnabled.toNat <<< 1)
    + (LCDLevelMeterEnabled.toNat <<< 2) : Nat) : Int)

/-- `Message::toVPotValue` (lines 584-586). -/
def Message.toVPotValue (type : WheelType) (ticks : Int) : Int :=
  type * 64 + ticks

/-- `Message::toVPotLEDRingValue` (lines 588-592). -/
def Message.toVPotLEDRingValue (centerLEDOn : Bool) (mode : VPotLEDRingMode) (value : Int) : Int :=
  (centerLEDOn.toNat : Int) * 64 + mode * 16 + value

/-- `Message::toJogWheelValue` (lines 594-596). -/
def Message.toJogWheelValue (type : WheelType) (ticks : Int) : Int :=
  type * 64 + ticks

/-- `Message::convertLCDPlace` (lines 598-600): lower-line flag and character index. -/
def Message.convertLCDPlace (place : Byte) : Bool × Byte :=
  (decide (place.val ≥ 56),
    toUInt8 (if place.val ≥ 56 then (place.val : Int) - 56 else (place.val : Int)))

/-- `Message::convertChannelMeterMode` (lines 602-606): a flag is true when its bit is set. -/
def Message.convertChannelMeterMode (mode : Byte) : Bool × Bool × Bool :=
  (decide (mode.val &&& (1 <<< 0) ≠ 0),
    decide (mode.val &&& (1 <<< 1) ≠ 0),
    decide (mode.val &&& (1 <<< 2) ≠ 0))

/-- `Message::convertVPotValue` (lines 608-610); `/` and `%` on `int` truncate towards zero. -/
def Message.convertVPotValue (value : Int) : WheelType × Int :=
  (value.tdiv 64, value.tmod 64)

/-- `Message::convertVPotLEDRingValue` (lines 612-614). -/
def Message.convertVPotLEDRingValue (value : Int) : Bool × VPotLEDRingMode × Int :=
  (decide (value.tdiv 64 ≠ 0), (value.tmod 64).tdiv 16, value.tmod 16)

/-- `Message::convertJogWheelValue` (lines 616-618). -/
def Message.convertJogWheelValue (value : Int) : WheelType × Int :=
  (value.tdiv 64, value.tmod 64)

/-! ## Constants of the specification -/

/-- The 19 SysEx command codes the specification declares valid, as integers. -/
def declaredSysExCodes : List Int :=
  [0, 1, 2, 3, 4, 11, 12, 14, 15, 16, 17, 18, 19, 20, 32, 33, 97, 98, 99]

/-- A call of one of the 19 SysEx factories `createDeviceQuery` ... `createReset`, with the
arguments of the call. -/
inductive SysExFactoryCall where
  | deviceQuery
  | hostConnectionQuery (order : ByteOrder) (serialNum : ByteArrayN 7) (challengeCode : Nat)
  | hostConnectionReply (order : ByteOrder) (serialNum : ByteArrayN 7) (responseCode : Nat)
  | hostConnectionConfirmation (serialNum : ByteArrayN 7)
  | hostConnectionError (serialNum : ByteArrayN 7)
  | lcdBackLightSaver (state timeout : Byte)
  | touchlessMovableFaders (state : Byte)
  | faderTouchSensitivity (channelNumber value : Byte)
  | goOffline
  | timeCodeBBTDisplay (data : List Byte)
  | assignment7SegmentDisplay (data : ByteArrayN 2)
  | lcd (place : Byte) (data : List Byte)
  | versionRequest
  | versionReply (data : List Byte)
  | channelMeterMode (channelNumber mode : Byte)
  | globalLCDMeterMode (mode : Byte)
  | allFaderstoMinimum
  | allLEDsOff
  | reset

/-- The message a factory call builds. -/
def SysExFactoryCall.build : SysExFactoryCall → Message
  | deviceQuery => Message.createDeviceQuery
  | hostConnectionQuery order serialNum challengeCode =>
    Message.createHostConnectionQuery order serialNum challengeCode
  | hostConnectionReply order serialNum responseCode =>
    Message.createHostConnectionReply order serialNum responseCode
  | hostConnectionConfirmation serialNum => Message.createHostConnectionConfirmation serialNum
  | hostConnectionError serialNum => Message.createHostConnectionError serialNum
  | lcdBackLightSaver state timeout => Message.createLCDBackLightSaver state timeout
  | touchlessMovableFaders state => Message.createTouchlessMovableFaders state
  | faderTouchSensitivity channelNumber value =>
    Message.createFaderTouchSensitivity channelNumber value
  | goOffline => Message.createGoOffline
  | timeCodeBBTDisplay data => Message.createTimeCodeBBTDisplay data
  | assignment7SegmentDisplay data => Message.createAssignment7SegmentDisplay data
  | lcd place data => Message.createLCD place data
  | versionRequest => Message.createVersionRequest
  | versionReply data => Message.createVersionReply data
  | channelMeterMode channelNumber mode => Message.createChannelMeterMode channelNumber mode
  | globalLCDMeterMode mode => Message.createGlobalLCDMeterMode mode
  | allFaderstoMinimum => Message.createAllFaderstoMinimum
  | allLEDsOff => Message.createAllLEDsOff
  | reset => Message.createReset

/-- The command code of the command a factory call is for. -/
def SysExFactoryCall.code : SysExFactoryCall → SysExMessage
  | deviceQuery => SysExMessage.DeviceQuery
  | hostConnectionQuery _ _ _ => SysExMessage.HostConnectionQuery
  | hostConnectionReply _ _ _ => SysExMessage.HostConnectionReply
  | hostConnectionConfirmation _ => SysExMessage.HostConnectionConfirmation
  | hostConnectionError _ => SysExMessage.HostConnectionError
  | lcdBackLightSaver _ _ => SysExMessage.LCDBackLightSaver
  | touchlessMovableFaders _ => SysExMessage.TouchlessMovableFaders
  | faderTouchSensitivity _ _ => SysExMessage.FaderTouchSensitivity
  | goOffline => SysExMessage.GoOffline
  | timeCodeBBTDisplay _ => SysExMessage.TimeCodeBBTDisplay
  | assignment7SegmentDisplay _ => SysExMessage.Assignment7SegmentDisplay
  | lcd _ _ => SysExMessage.LCD
  | versionRequest => SysExMessage.VersionRequest
  | versionReply _ => SysExMessage.VersionReply
  | channelMeterMode _ _ => SysExMessage.ChannelMeterMode
  | globalLCDMeterMode _ => SysExMessage.GlobalLCDMeterMode
  | allFaderstoMinimum => SysExMessage.AllFaderstoMinimum
  | allLEDsOff => SysExMessage.AllLEDsOff
  | reset => SysExMessage.Reset

/-! ## Theorems -/

/-- The reported payload size is the number of payload bytes, except that it is -1 for the
message made of the lone status byte, which has no payload byte. -/
theorem getSysExDataSize_cases (m : MidiMessage) :
    m.getSysExDataSize = (m.getSysExData.length : Int) ∨
    (m.getSysExDataSize = -1 ∧ m.getSysExData.length = 0) := by
  unfold MidiMessage.getSysExDataSize
  split
  · rename_i h
    right
    refine ⟨rfl, ?_⟩
    rw [h.2]
    rfl
  · left
    rfl

theorem getSysExDataSize_of_not_lone (m : MidiMessage) (h : m.isLoneStatusByte = false) :
    m.getSysExDataSize = (m.getSysExData.length : Int) := by
  unfold MidiMessage.getSysExDataSize
  rw [if_neg]
  rintro ⟨h1, _⟩
  rw [h] at h1
  exact absurd h1 (by decide)

theorem getSysExDataSize_of_ne_nil (m : MidiMessage) (h : m.getSysExData ≠ []) :
    m.getSysExDataSize = (m.getSysExData.length : Int) := by
  unfold MidiMessage.getSysExDataSize
  rw [if_neg]
  rintro ⟨_, h2⟩
  exact h h2

theorem toSizeT_of_nonneg (v : Int) (h : 0 ≤ v) : ((toSizeT v : Nat) : Int) = v := by
  unfold toSizeT
  rw [if_pos h]
  omega

theorem castToByteEnum_val (n : Int) : ((castToByteEnum n).val : Int) = n % 256 := by
  unfold castToByteEnum toUInt8
  show (((n % 256).toNat : Nat) : Int) = n % 256
  omega

set_option maxRecDepth 100000 in
theorem isValidSysExMessageTyped_iff :
    ∀ b : Byte, isValidSysExMessageTyped b = true ↔ (b.val : Int) ∈ declaredSysExCodes := by
  decide

/-- The challenge code returned by `getHostConnectionQueryData` is the value of one payload
byte, whatever message it decodes. -/
theorem getHostConnectionQueryData_code_lt (m : Message) (s : ByteArrayN 7) (c : Nat)
    (h : m.getHostConnectionQueryData = some (s, c)) : c < 256 := by
  unfold Message.getHostConnectionQueryData at h
  split at h
  · simp only [Option.some.injEq, Prod.mk.injEq] at h
    omega
  · cases h1 : readArray m.message.getSysExData 5 7 with
    | none => simp [h1] at h
    | some bytes =>
      cases h2 : readByte m.message.getSysExData (5 + 7) with
      | none => simp [h1, h2] at h
      | some code =>
        simp [h1, h2] at h
        have := code.isLt
        omega

/-- C1 (evaluation at the failing input): with serial number `[1,2,3,4,5,6,7]` and challenge code
`0xAABBCCDD`, decoding the built HostConnectionQuery returns the serial number together with
the single byte stored at payload offset 12 (`0xDD` on a little-endian platform, `0xAA` on a
big-endian one), never the 32-bit challenge code. -/
theorem C1_hostConnectionQuery_challenge_lost :
    (Message.createHostConnectionQuery ByteOrder.littleEndian
        ⟨[1, 2, 3, 4, 5, 6, 7], rfl⟩ 0xAABBCCDD).getHostConnectionQueryData
      = some (⟨[1, 2, 3, 4, 5, 6, 7], rfl⟩, 0xDD) ∧
    (Message.createHostConnectionQuery ByteOrder.bigEndian
        ⟨[1, 2, 3, 4, 5, 6, 7], rfl⟩ 0xAABBCCDD).getHostConnectionQueryData
      = some (⟨[1, 2, 3, 4, 5, 6, 7], rfl⟩, 0xAA) ∧
    ∀ order, (Message.createHostConnectionQuery order
        ⟨[1, 2, 3, 4, 5, 6, 7], rfl⟩ 0xAABBCCDD).getHostConnectionQueryData
      ≠ some (⟨[1, 2, 3, 4, 5, 6, 7], rfl⟩, 0xAABBCCDD) := by
  refine ⟨by decide, by decide, ?_⟩
  intro order h
  have := getHostConnectionQueryData_code_lt _ _ _ h
  omega

/-- C2 (counterexample): the integer 256 is not one of the 19 declared codes, yet the `int`
overload `isValidSysExMessage` accepts it, because the cast to the `uint8_t`-based enumeration
turns it into 0 (DeviceQuery). -/
theorem C2_counterexample_256 :
    isValidSysExMessage 256 = true ∧ (256 : Int) ∉ declaredSysExCodes ∧
    ¬ (isValidSysExMessage 256 = true ↔ (256 : Int) ∈ declaredSysExCodes) := by
  decide

/-- C2 (amended): for every raw integer `n`, `isValidSysExMessage n` is true exactly when
`n mod 256`, the value left by the cast to the `uint8_t`-based enumeration, is one of the 19
declared codes; for `n` in 0..255 this is membership of `n` itself, so the gap neighbours and
every value in 128..255 are rejected. -/
theorem C2_isValidSysExMessage_iff (n : Int) :
    (isValidSysExMessage n = true ↔ n % 256 ∈ declaredSysExCodes) ∧
    (0 ≤ n ∧ n ≤ 255 → (isValidSysExMessage n = true ↔ n ∈ declaredSysExCodes)) ∧
    (128 ≤ n ∧ n ≤ 255 → isValidSysExMessage n = false) := by
  have key : isValidSysExMessage n = true ↔ n % 256 ∈ declaredSysExCodes := by
    unfold isValidSysExMessage
    rw [isValidSysExMessageTyped_iff, castToByteEnum_val]
  refine ⟨key, ?_, ?_⟩
  · rintro ⟨h0, h1⟩
    rw [key, Int.emod_eq_of_lt h0 (by omega)]
  · rintro ⟨h0, h1⟩
    rw [Bool.eq_false_iff, Ne, key, Int.emod_eq_of_lt (by omega) (by omega)]
    simp only [declaredSysExCodes, List.mem_cons, List.not_mem_nil, or_false]
    omega

/-- The payload built by `createLCD`: header, code byte, place byte, then the characters. -/
theorem createLCD_payload (p : Byte) (d : List Byte) :
    (Message.createLCD p d).message.getSysExData
      = [0, 0, 0, 0, SysExMessage.LCD, p] ++ d := by
  have hrep : List.replicate (5 + 1 + d.length) (0 : Byte)
      = 0 :: 0 :: 0 :: 0 :: 0 :: 0 :: List.replicate d.length 0 := by
    rw [show 5 + 1 + d.length = d.length + 6 by omega]
    rfl
  show memcpy (((List.replicate (5 + 1 + d.length) (0 : Byte)).set 4 SysExMessage.LCD).set 5 p) 6 d
    = [0, 0, 0, 0, SysExMessage.LCD, p] ++ d
  rw [hrep]
  simp [memcpy]
  omega

/-- C3 (counterexample): for the empty character sequence and place byte 5 the decoder returns
the default result `(0, null, 0)`; the place byte 5 is not returned. -/
theorem C3_counterexample_empty_text :
    (Message.createLCD 5 []).getLCDData = some (0, none, 0) ∧
    ¬ ∃ ptr, (Message.createLCD 5 []).getLCDData = some (5, ptr, 0) := by
  have h0 : (Message.createLCD 5 []).getLCDData = some (0, none, 0) := by decide
  refine ⟨h0, ?_⟩
  rintro ⟨ptr, h⟩
  rw [h0] at h
  simp only [Option.some.injEq, Prod.mk.injEq] at h
  exact absurd h.1 (by decide)

/-- C3 (amended): for every place byte `p` and every character sequence `d` of length `n ≥ 1`,
`getLCDData (createLCD p d)` returns `p`, the pointer to payload offset 6 and the length `n`,
and the `n` bytes seen through that view are those of `d`; for the empty sequence the payload
has 6 bytes, fewer than the 7 the decoder asks for, and the result is the default
`(0, null, 0)`. -/
theorem C3_createLCD_getLCDData (p : Byte) (d : List Byte) :
    if d = [] then
      (Message.createLCD p d).getLCDData = some (0, none, 0)
    else
      (Message.createLCD p d).getLCDData = some (p, some 6, (d.length : Int)) ∧
      (Message.createLCD p d).viewBytes (some 6) (d.length : Int) = some d := by
  have hp := createLCD_payload p d
  cases d with
  | nil =>
    rw [if_pos rfl]
    unfold Message.getLCDData
    rw [getSysExDataSize_of_not_lone _ rfl, hp]
    simp
  | cons a t =>
    rw [if_neg (List.cons_ne_nil a t)]
    constructor
    · unfold Message.getLCDData
      rw [getSysExDataSize_of_not_lone _ rfl, hp]
      have hlt : ¬ (((([0, 0, 0, 0, SysExMessage.LCD, p] ++ a :: t).length : Nat) : Int)
          < 5 + 1 + 1) := by
        simp only [List.length_append, List.length_cons, List.length_nil]
        omega
      rw [if_neg hlt]
      simp only [readByte, elemPtr, List.length_append, List.length_cons, List.length_nil]
      simp
    · unfold Message.viewBytes
      rw [hp]
      simp
      omega

/-- C4: `createLCDBackLightSaver state timeout` writes the timeout byte only when `state` is
nonzero (the payload is the 7 bytes `0,0,0,0,11,state,timeout` if `state > 0` and the 6 bytes
`0,0,0,0,11,state` otherwise), and `getLCDBackLightSaverData` of the built message returns
`(state, timeout)` when `state > 0` and `(0, 0)` when `state = 0`. -/
theorem C4_lcdBackLightSaver_roundtrip (state timeout : Byte) :
    (Message.createLCDBackLightSaver state timeout).message.getSysExData
      = (if state > 0 then [0, 0, 0, 0, SysExMessage.LCDBackLightSaver, state, timeout]
          else [0, 0, 0, 0, SysExMessage.LCDBackLightSaver, state]) ∧
    (Message.createLCDBackLightSaver state timeout).message.getSysExDataSize
      = (if state > 0 then 7 else 6) ∧
    (Message.createLCDBackLightSaver state timeout).getLCDBackLightSaverData
      = (if state > 0 then some (state, timeout) else some (0, 0)) := by
  by_cases h : state > 0
  · simp only [Message.createLCDBackLightSaver, if_pos h]
    refine ⟨rfl, rfl, ?_⟩
    rfl
  · have h0 : state = 0 := by
      apply Fin.ext
      have : ¬ (0 < state.val) := fun hlt => h (Fin.lt_def.mpr hlt)
      show state.val = 0
      omega
    subst h0
    simp only [Message.createLCDBackLightSaver, if_neg h]
    refine ⟨rfl, rfl, ?_⟩
    rfl

/-- C5: for every meter channel `ch` in 1..8 and every meter value `v` in 0..15,
`createChannelPressure ch v` is a channel-pressure message whose packed payload is
`(ch - 1) * 16 + v`, and `getChannelPressureData` of it returns `(ch, v)`; for `ch = 3`,
`v = 5` the payload is 37. -/
theorem C5_channelPressure_roundtrip (ch v : Int) (hch : 1 ≤ ch ∧ ch ≤ 8)
    (hv : 0 ≤ v ∧ v ≤ 15) :
    (Message.createChannelPressure ch v).isChannelPressure = true ∧
    (Message.createChannelPressure ch v).message.getChannelPressureValue = (ch - 1) * 16 + v ∧
    (Message.createChannelPressure ch v).getChannelPressureData = (ch, v) ∧
    (Message.createChannelPressure 3 5).message.getChannelPressureValue = 37 := by
  refine ⟨rfl, rfl, ?_, rfl⟩
  show (((ch - 1) * 16 + v).tdiv 16 + 1, ((ch - 1) * 16 + v).tmod 16) = (ch, v)
  have hx : (0 : Int) ≤ (ch - 1) * 16 + v := by omega
  rw [Int.tdiv_eq_ediv hx (by decide), Int.tmod_eq_emod hx (by decide)]
  refine Prod.ext ?_ ?_
  · show ((ch - 1) * 16 + v) / 16 + 1 = ch
    omega
  · show ((ch - 1) * 16 + v) % 16 = v
    omega

/-- C5 at channel 3 and value 5: the packed payload is 37 and it decodes to `(3, 5)`. -/
theorem C5_channelPressure_roundtrip_witness :
    (Message.createChannelPressure 3 5).isChannelPressure = true ∧
    (Message.createChannelPressure 3 5).message.getChannelPressureValue = (3 - 1) * 16 + 5 ∧
    (Message.createChannelPressure 3 5).getChannelPressureData = (3, 5) ∧
    (Message.createChannelPressure 3 5).message.getChannelPressureValue = 37 :=
  C5_channelPressure_roundtrip 3 5 (by decide) (by decide)

/-- The search `std::find(...) != end()` finds exactly the members of the array. -/
theorem contains_iff_mem {α : Type} [DecidableEq α] (l : List α) (a : α) :
    l.contains a = true ↔ a ∈ l :=
  List.elem_iff

/-- On a byte promoted to `int`, the `int` overload `isValidSysExMessage` is membership in the
19 declared codes. -/
theorem isValidSysExMessage_byte (b : Byte) :
    isValidSysExMessage (b.val : Int) = true ↔ (b.val : Int) ∈ declaredSysExCodes := by
  unfold isValidSysExMessage
  rw [isValidSysExMessageTyped_iff, castToByteEnum_val]
  have := b.isLt
  rw [Int.emod_eq_of_lt (by omega) (by omega)]

set_option maxRecDepth 100000 in
theorem isValidVelocityMessageTyped_iff :
    ∀ b : Byte, isValidVelocityMessageTyped b = true ↔ b.val ∈ [0, 1, 127] := by
  decide

/-- On a byte promoted to `int`, the `int` overload `isValidVelocityMessage` is membership in
`{0, 1, 127}`. -/
theorem isValidVelocityMessage_byte (b : Byte) :
    isValidVelocityMessage (b.val : Int) = true ↔ b.val ∈ [0, 1, 127] := by
  have hb : castToByteEnum (b.val : Int) = b := by
    apply Fin.ext
    have h1 := castToByteEnum_val (b.val : Int)
    have h2 := b.isLt
    omega
  unfold isValidVelocityMessage
  rw [hb, isValidVelocityMessageTyped_iff]

/-- C6: for every transport message `m`, `Message(m).isSysEx()` is true if and only if `m` is a
system-exclusive message, its payload has at least 5 bytes, and the byte at payload offset 4 is
one of the 19 valid SysEx codes. -/
theorem C6_isSysEx_iff (m : MidiMessage) :
    (Message.mk m).isSysEx = true ↔
      (m.isSysEx = true ∧ 5 ≤ m.getSysExData.length ∧
        ∃ b, m.getSysExData[4]? = some b ∧ (b.val : Int) ∈ declaredSysExCodes) := by
  unfold Message.isSysEx
  by_cases hs : m.isSysEx = true
  · by_cases hl : m.getSysExDataSize ≥ 5
    · have hlen : 5 ≤ m.getSysExData.length := by
        have hsz := getSysExDataSize_cases m
        omega
      have h4 : m.getSysExData[4]? = some (m.getSysExData.get ⟨4, by omega⟩) :=
        List.getElem?_eq_getElem (by omega)
      simp only [hs, if_true, dif_pos hl, isValidSysExMessage_byte, true_and, hlen, h4,
        Option.some.injEq, exists_eq_left']
    · have hlen : ¬ 5 ≤ m.getSysExData.length := by
        have hsz := getSysExDataSize_cases m
        omega
      simp [hs, dif_neg hl, hlen]
  · simp [hs]

/-- C7: for every transport message `m`, `Message(m).isNote()` is true if and only if `m` is a
note on/off event, its note number is in the allow-list `validNoteMessage` and its velocity is
one of 0, 1, 127. -/
theorem C7_isNote_iff (m : MidiMessage) :
    (Message.mk m).isNote = true ↔
      (m.isNoteOnOrOff = true ∧ m.getNoteNumber ∈ validNoteMessage ∧
        m.getVelocity.val ∈ [0, 1, 127]) := by
  unfold Message.isNote
  by_cases hn : m.isNoteOnOrOff = true
  · simp only [hn, if_true, Bool.and_eq_true, isValidVelocityMessage_byte, true_and,
      isValidNoteMessage, isValidNoteMessageTyped, contains_iff_mem]
  · simp [hn]

/-- C8: for every transport message `m`, `Message(m).isPitchWheel()` is true if and only if `m`
is a pitch-wheel event whose channel `c` satisfies `1 ≤ c ≤ 9`; no message with a channel in
10..16 is accepted. -/
theorem C8_isPitchWheel_iff (m : MidiMessage) :
    ((Message.mk m).isPitchWheel = true ↔
      (m.isPitchWheel = true ∧ 1 ≤ m.getChannel ∧ m.getChannel ≤ 9)) ∧
    ¬ (10 ≤ m.getChannel ∧ m.getChannel ≤ 16 ∧ (Message.mk m).isPitchWheel = true) := by
  have key : (Message.mk m).isPitchWheel = true ↔
      (m.isPitchWheel = true ∧ 1 ≤ m.getChannel ∧ m.getChannel ≤ 9) := by
    unfold Message.isPitchWheel
    by_cases hp : m.isPitchWheel = true
    · simp [hp]
    · simp [hp]
  refine ⟨key, ?_⟩
  rintro ⟨h10, _, h⟩
  have := (key.mp h).2.2
  omega

/-- C9: for every transport message `m`, `Message(m).isMackieControl()` is the logical OR of
`isSysEx()`, `isNote()`, `isCC()`, `isPitchWheel()` and `isChannelPressure()` on the same
message, where `isCC()` holds iff `m` is a controller-change event with a controller number in
the allow-list `validCCMessage`, and `isChannelPressure()` holds iff `m` is a channel-pressure
event. -/
theorem C9_isMackieControl_eq_or (m : MidiMessage) :
    (Message.mk m).isMackieControl
      = ((Message.mk m).isSysEx || (Message.mk m).isNote || (Message.mk m).isCC ||
          (Message.mk m).isPitchWheel || (Message.mk m).isChannelPressure) ∧
    ((Message.mk m).isCC = true ↔
      (m.isController = true ∧ m.getControllerNumber ∈ validCCMessage)) ∧
    ((Message.mk m).isChannelPressure = true ↔ m.isChannelPressure = true) := by
  refine ⟨rfl, ?_, ?_⟩
  · unfold Message.isCC
    by_cases hc : m.isController = true
    · simp only [hc, if_true, true_and, isValidCCMessage, isValidCCMessageTyped,
        contains_iff_mem]
    · simp [hc]
  · unfold Message.isChannelPressure
    by_cases hc : m.isChannelPressure = true
    · simp [hc]
    · simp [hc]

/-- C10: the default-constructed (empty) `Message` is not a valid protocol command:
`isMackieControl()` is false on it, and so are `isSysEx()`, `isNote()`, `isCC()`,
`isPitchWheel()` and `isChannelPressure()`, whether or not the transport library reports its
empty message as system-exclusive. -/
theorem C10_default_message_invalid (sysExFlag : Bool) :
    (Message.default sysExFlag).isMackieControl = false ∧
    (Message.default sysExFlag).isSysEx = false ∧
    (Message.default sysExFlag).isNote = false ∧
    (Message.default sysExFlag).isCC = false ∧
    (Message.default sysExFlag).isPitchWheel = false ∧
    (Message.default sysExFlag).isChannelPressure = false := by
  cases sysExFlag <;> decide

/-! ### The SysEx factories -/

/-- The payload built by `createTimeCodeBBTDisplay`: header, code byte, one placeholder byte,
the display characters and one trailing zero byte. -/
theorem createTimeCodeBBTDisplay_payload (d : List Byte) :
    (Message.createTimeCodeBBTDisplay d).message.getSysExData
      = [0, 0, 0, 0, SysExMessage.TimeCodeBBTDisplay, 0] ++ d ++ [0] := by
  have hrep : List.replicate (5 + 1 + d.length + 1) (0 : Byte)
      = 0 :: 0 :: 0 :: 0 :: 0 :: 0 :: List.replicate (d.length + 1) 0 := by
    rw [show 5 + 1 + d.length + 1 = (d.length + 1) + 6 by omega]
    rfl
  show memcpy ((List.replicate (5 + 1 + d.length + 1) (0 : Byte)).set 4
      SysExMessage.TimeCodeBBTDisplay) 6 d
    = [0, 0, 0, 0, SysExMessage.TimeCodeBBTDisplay, 0] ++ d ++ [0]
  rw [hrep]
  simp only [memcpy, List.set_cons_succ, List.set_cons_zero, List.take_succ_cons, List.take_zero]
  rw [show 6 + d.length = d.length + 1 + 1 + 1 + 1 + 1 + 1 by omega]
  simp only [List.drop_succ_cons, List.drop_replicate, Nat.add_sub_cancel_left]
  rfl

/-- The payload built by `createVersionReply`: header, code byte, one placeholder byte, then the
version characters. -/
theorem createVersionReply_payload (d : List Byte) :
    (Message.createVersionReply d).message.getSysExData
      = [0, 0, 0, 0, SysExMessage.VersionReply, 0] ++ d := by
  have hrep : List.replicate (5 + 1 + d.length) (0 : Byte)
      = 0 :: 0 :: 0 :: 0 :: 0 :: 0 :: List.replicate d.length 0 := by
    rw [show 5 + 1 + d.length = d.length + 6 by omega]
    rfl
  show memcpy ((List.replicate (5 + 1 + d.length) (0 : Byte)).set 4
      SysExMessage.VersionReply) 6 d
    = [0, 0, 0, 0, SysExMessage.VersionReply, 0] ++ d
  rw [hrep]
  simp [memcpy]
  omega

/-- The transport message built by `createLCDBackLightSaver`: the timeout byte is there only for
a nonzero state. -/
theorem createLCDBackLightSaver_message (state timeout : Byte) :
    (Message.createLCDBackLightSaver state timeout).message
      = MidiMessage.createSysExMessage
          (0 :: 0 :: 0 :: 0 :: SysExMessage.LCDBackLightSaver :: state ::
            (if state > 0 then [timeout] else [])) := by
  by_cases h : state > 0
  · simp only [Message.createLCDBackLightSaver, if_pos h]
    rfl
  · simp only [Message.createLCDBackLightSaver, if_neg h]
    rfl

/-- Every SysEx factory builds a system-exclusive transport message whose payload starts with
four zero bytes followed by the command code. -/
theorem factory_payload_header (call : SysExFactoryCall) :
    call.build.message.isSysEx = true ∧
    ∃ rest, call.build.message.getSysExData = 0 :: 0 :: 0 :: 0 :: call.code :: rest := by
  refine ⟨by
    cases call with
    | lcdBackLightSaver state timeout =>
      show (Message.createLCDBackLightSaver state timeout).message.isSysEx = true
      rw [createLCDBackLightSaver_message]
      rfl
    | _ => rfl, ?_⟩
  cases call with
  | deviceQuery => exact ⟨_, rfl⟩
  | hostConnectionQuery order serialNum challengeCode => exact ⟨_, rfl⟩
  | hostConnectionReply order serialNum responseCode => exact ⟨_, rfl⟩
  | hostConnectionConfirmation serialNum => exact ⟨_, rfl⟩
  | hostConnectionError serialNum => exact ⟨_, rfl⟩
  | lcdBackLightSaver state timeout =>
    show ∃ rest, (Message.createLCDBackLightSaver state timeout).message.getSysExData
      = 0 :: 0 :: 0 :: 0 :: 11 :: rest
    rw [createLCDBackLightSaver_message]
    exact ⟨_, rfl⟩
  | touchlessMovableFaders state => exact ⟨_, rfl⟩
  | faderTouchSensitivity channelNumber value => exact ⟨_, rfl⟩
  | goOffline => exact ⟨_, rfl⟩
  | timeCodeBBTDisplay data => exact ⟨_, createTimeCodeBBTDisplay_payload data⟩
  | assignment7SegmentDisplay data => exact ⟨_, rfl⟩
  | lcd place data => exact ⟨_, createLCD_payload place data⟩
  | versionRequest => exact ⟨_, rfl⟩
  | versionReply data => exact ⟨_, createVersionReply_payload data⟩
  | channelMeterMode channelNumber mode => exact ⟨_, rfl⟩
  | globalLCDMeterMode mode => exact ⟨_, rfl⟩
  | allFaderstoMinimum => exact ⟨_, rfl⟩
  | allLEDsOff => exact ⟨_, rfl⟩
  | reset => exact ⟨_, rfl⟩

/-- The command code of every factory call is one of the 19 declared codes. -/
theorem factory_code_valid (call : SysExFactoryCall) :
    isValidSysExMessage (call.code.val : Int) = true := by
  cases call <;> rfl

/-- C11: for every one of the 19 SysEx factories and every choice of its parameters, the built
message classifies as SysEx (`isSysEx()` is true) and `getSysExData()` on it returns the code of
that command; in particular `createDeviceQuery()` decodes to `DeviceQuery`. -/
theorem C11_factories_classify_as_sysex (call : SysExFactoryCall) :
    call.build.isSysEx = true ∧
    call.build.getSysExData = some call.code ∧
    Message.createDeviceQuery.isSysEx = true ∧
    Message.createDeviceQuery.getSysExData = some SysExMessage.DeviceQuery := by
  obtain ⟨hs, rest, hp⟩ := factory_payload_header call
  refine ⟨?_, ?_, by decide, by decide⟩
  · unfold Message.isSysEx
    have hne : call.build.message.getSysExData ≠ [] := by
      rw [hp]
      exact List.cons_ne_nil _ _
    have hl : call.build.message.getSysExDataSize ≥ 5 := by
      rw [getSysExDataSize_of_ne_nil _ hne, hp]
      simp only [List.length_cons]
      omega
    rw [if_pos hs, dif_pos hl]
    have h4 : call.build.message.getSysExData.get ⟨4, by
        have hsz := getSysExDataSize_cases call.build.message; omega⟩ = call.code := by
      simp only [hp, List.get_eq_getElem]
      rfl
    rw [h4]
    exact factory_code_valid call
  · have hne : call.build.message.getSysExData ≠ [] := by
      rw [hp]
      exact List.cons_ne_nil _ _
    unfold Message.getSysExData readByte
    rw [getSysExDataSize_of_ne_nil _ hne, hp]
    have hlt : ¬ (((0 :: 0 :: 0 :: 0 :: call.code :: rest).length : Int) < 5) := by
      simp only [List.length_cons]
      omega
    rw [if_neg hlt]
    simp

/-- C12: for every SysEx factory and every choice of its parameters, the payload of the built
message starts with a 4-byte header that is all zero (payload bytes 0..3 are 0), followed at
offset 4 by the command code byte. -/
theorem C12_factory_header_zero (call : SysExFactoryCall) :
    call.build.message.getSysExData[0]? = some 0 ∧
    call.build.message.getSysExData[1]? = some 0 ∧
    call.build.message.getSysExData[2]? = some 0 ∧
    call.build.message.getSysExData[3]? = some 0 ∧
    call.build.message.getSysExData[4]? = some call.code := by
  obtain ⟨_, rest, hp⟩ := factory_payload_header call
  rw [hp]
  simp

/-- C13 (counterexample): for the two display bytes 65, 66 the payload built by
`createTimeCodeBBTDisplay` has 9 bytes, one more than `6 + 2`: a zero byte follows the display
bytes. -/
theorem C13_counterexample_trailing_byte :
    (Message.createTimeCodeBBTDisplay [65, 66]).message.getSysExData
      = [0, 0, 0, 0, 16, 0, 65, 66, 0] ∧
    (Message.createTimeCodeBBTDisplay [65, 66]).message.getSysExData.length ≠ 6 + 2 := by
  decide

/-- C13 (amended): for every byte sequence `d` of length `n ≥ 0`, the payload built by
`createTimeCodeBBTDisplay` consists of the 4-byte zero header, the code byte, 1 placeholder
byte, the `n` bytes of `d` at offsets `6..5+n` and one trailing zero byte at offset `6+n`, so
its total length is `7 + n`. -/
theorem C13_createTimeCodeBBTDisplay_layout (d : List Byte) :
    (Message.createTimeCodeBBTDisplay d).message.getSysExData
      = [0, 0, 0, 0, SysExMessage.TimeCodeBBTDisplay, 0] ++ d ++ [0] ∧
    (Message.createTimeCodeBBTDisplay d).message.getSysExData.length = 7 + d.length ∧
    ((Message.createTimeCodeBBTDisplay d).message.getSysExData.drop 6).take d.length = d ∧
    (Message.createTimeCodeBBTDisplay d).message.getSysExData[6 + d.length]? = some 0 := by
  have hp := createTimeCodeBBTDisplay_payload d
  rw [hp]
  refine ⟨rfl, ?_, ?_, ?_⟩
  · simp only [List.length_append, List.length_cons, List.length_nil]
    omega
  · simp
  · rw [show 6 + d.length = d.length + 1 + 1 + 1 + 1 + 1 + 1 by omega]
    simp only [List.cons_append, List.nil_append, List.getElem?_cons_succ]
    simp [List.getElem?_append_right]

/-- C14: for every byte sequence `d` of length `n ≥ 1`,
`getTimeCodeBBTDisplayData (createTimeCodeBBTDisplay d)` returns the pointer to payload offset 6
together with the length `n`, and the `n` bytes seen through that view are those of `d`. -/
theorem C14_timeCodeBBTDisplay_roundtrip (d : List Byte) (hn : 1 ≤ d.length) :
    (Message.createTimeCodeBBTDisplay d).getTimeCodeBBTDisplayData
      = some (some 6, (d.length : Int)) ∧
    (Message.createTimeCodeBBTDisplay d).viewBytes (some 6) (d.length : Int) = some d := by
  have hp := createTimeCodeBBTDisplay_payload d
  constructor
  · unfold Message.getTimeCodeBBTDisplayData elemPtr
    rw [getSysExDataSize_of_not_lone _ rfl, hp]
    have hlen : ([0, 0, 0, 0, SysExMessage.TimeCodeBBTDisplay, 0] ++ d ++ [0]).length
        = d.length + 7 := by
      simp only [List.length_append, List.length_cons, List.length_nil]
      omega
    rw [hlen]
    have hlt : ¬ (((d.length + 7 : Nat) : Int) < 5 + 1 + 1 + 1) := by omega
    rw [if_neg hlt, if_pos (by omega)]
    simp only [Option.bind_eq_bind, Option.some_bind, Option.pure_def, Option.some.injEq,
      Prod.mk.injEq, true_and]
    omega
  · unfold Message.viewBytes
    rw [hp]
    simp
    omega

/-- C14 at the three display bytes 1, 2, 3. -/
theorem C14_timeCodeBBTDisplay_roundtrip_witness :
    (Message.createTimeCodeBBTDisplay [1, 2, 3]).getTimeCodeBBTDisplayData
      = some (some 6, 3) ∧
    (Message.createTimeCodeBBTDisplay [1, 2, 3]).viewBytes (some 6) 3 = some [1, 2, 3] :=
  C14_timeCodeBBTDisplay_roundtrip [1, 2, 3] (by decide)

/-! ### Notes and short payloads -/

/-- C15: for every valid note code `t` (a member of `validNoteMessage`) and every velocity code
`v` among `Off`, `Flashing`, `On`, `createNote t v` builds a message for which `isNote()` is
true and `getNoteData()` returns `(t, v)`; in particular `createNote PLAY On` decodes to
`(PLAY, On)`. -/
theorem C15_createNote_roundtrip (t : NoteMessage) (v : VelocityMessage)
    (ht : t ∈ validNoteMessage)
    (hv : v = VelocityMessage.Off ∨ v = VelocityMessage.Flashing ∨ v = VelocityMessage.On) :
    (Message.createNote t v).isNote = true ∧
    (Message.createNote t v).getNoteData = (t, v) ∧
    (Message.createNote NoteMessage.PLAY VelocityMessage.On).getNoteData
      = (NoteMessage.PLAY, VelocityMessage.On) := by
  refine ⟨?_, rfl, rfl⟩
  show (isValidNoteMessage t && isValidVelocityMessage (v.val : Int)) = true
  rw [Bool.and_eq_true]
  constructor
  · exact (contains_iff_mem validNoteMessage t).mpr ht
  · rw [isValidVelocityMessage_byte]
    rcases hv with h | h | h <;> subst h <;> decide

/-- C15 at the note `PLAY` with velocity `On`. -/
theorem C15_createNote_roundtrip_witness :
    (Message.createNote NoteMessage.PLAY VelocityMessage.On).isNote = true ∧
    (Message.createNote NoteMessage.PLAY VelocityMessage.On).getNoteData
      = (NoteMessage.PLAY, VelocityMessage.On) ∧
    (Message.createNote NoteMessage.PLAY VelocityMessage.On).getNoteData
      = (NoteMessage.PLAY, VelocityMessage.On) :=
  C15_createNote_roundtrip NoteMessage.PLAY VelocityMessage.On (by decide)
    (Or.inr (Or.inr rfl))

/-- C16 (counterexample): the 6-byte payload `0,0,0,0,11,1` carries the LCDBackLightSaver code
and a nonzero state; such a command needs the timeout byte, 7 bytes in all, as
`createLCDBackLightSaver` builds for state 1. The payload is shorter, yet
`getLCDBackLightSaverData` returns `(1, 0)` on it, not the default `(0, 0)`. -/
theorem C16_counterexample_backlight_six_bytes :
    (MidiMessage.createSysExMessage [0, 0, 0, 0, 11, 1]).getSysExDataSize = 6 ∧
    (Message.createLCDBackLightSaver 1 0).message.getSysExDataSize = 7 ∧
    (Message.mk (MidiMessage.createSysExMessage [0, 0, 0, 0, 11, 1])).getLCDBackLightSaverData
      = some (1, 0) ∧
    (Message.mk (MidiMessage.createSysExMessage [0, 0, 0, 0, 11, 1])).getLCDBackLightSaverData
      ≠ some (0, 0) := by
  decide

/-- C16 (amended): for every message, each of the eight decoders whose guard is an `int`
comparison returns the default result of its type, and does not fail, when the payload size is
below the decoder's minimum (6 bytes for LCDBackLightSaver, TouchlessMovableFaders and
GlobalLCDMeterMode, 7 for FaderTouchSensitivity, LCD, VersionReply and ChannelMeterMode, 8 for
TimeCodeBBTDisplay); each of the five decoders whose guard contains `sizeof` does so when the
payload size is not negative and below its minimum (16 bytes for HostConnectionQuery and
HostConnectionReply, 12 for HostConnectionConfirmation and HostConnectionError, 8 for
Assignment7SegmentDisplay); and on a payload of exactly 6 bytes `getLCDBackLightSaverData`
returns the state byte together with the timeout 0. -/
theorem C16_short_payload_defaults (m : Message) :
    (0 ≤ m.message.getSysExDataSize ∧ m.message.getSysExDataSize < 16 →
      m.getHostConnectionQueryData = some (ByteArrayN.zero 7, 0)) ∧
    (0 ≤ m.message.getSysExDataSize ∧ m.message.getSysExDataSize < 16 →
      m.getHostConnectionReplyData = some (ByteArrayN.zero 7, 0)) ∧
    (0 ≤ m.message.getSysExDataSize ∧ m.message.getSysExDataSize < 12 →
      m.getHostConnectionConfirmationData = some (ByteArrayN.zero 7)) ∧
    (0 ≤ m.message.getSysExDataSize ∧ m.message.getSysExDataSize < 12 →
      m.getHostConnectionErrorData = some (ByteArrayN.zero 7)) ∧
    (m.message.getSysExDataSize < 6 → m.getLCDBackLightSaverData = some (0, 0)) ∧
    (m.message.getSysExDataSize = 6 →
      ∃ state, m.message.getSysExData[5]? = some state ∧
        m.getLCDBackLightSaverData = some (state, 0)) ∧
    (m.message.getSysExDataSize < 6 → m.getTouchlessMovableFadersData = some 0) ∧
    (m.message.getSysExDataSize < 7 → m.getFaderTouchSensitivityData = some (0, 0)) ∧
    (m.message.getSysExDataSize < 8 → m.getTimeCodeBBTDisplayData = some (none, 0)) ∧
    (0 ≤ m.message.getSysExDataSize ∧ m.message.getSysExDataSize < 8 →
      m.getAssignment7SegmentDisplayData = some (ByteArrayN.zero 2)) ∧
    (m.message.getSysExDataSize < 7 → m.getLCDData = some (0, none, 0)) ∧
    (m.message.getSysExDataSize < 7 → m.getVersionReplyData = some (none, 0)) ∧
    (m.message.getSysExDataSize < 7 → m.getChannelMeterModeData = some (0, 0)) ∧
    (m.message.getSysExDataSize < 6 → m.getGlobalLCDMeterModeData = some 0) := by
  have hsz := getSysExDataSize_cases m.message
  refine ⟨?_, ?_, ?_, ?_, ?_, ?_, ?_, ?_, ?_, ?_, ?_, ?_, ?_, ?_⟩ <;> intro h
  · have ht := toSizeT_of_nonneg _ h.1
    unfold Message.getHostConnectionQueryData
    rw [if_pos (by omega)]
  · have ht := toSizeT_of_nonneg _ h.1
    unfold Message.getHostConnectionReplyData
    rw [if_pos (by omega)]
  · have ht := toSizeT_of_nonneg _ h.1
    unfold Message.getHostConnectionConfirmationData
    rw [if_pos (by omega)]
  · have ht := toSizeT_of_nonneg _ h.1
    unfold Message.getHostConnectionErrorData
    rw [if_pos (by omega)]
  · unfold Message.getLCDBackLightSaverData
    rw [if_pos (by omega)]
  · have hlen : 5 < m.message.getSysExData.length := by omega
    refine ⟨m.message.getSysExData.get ⟨5, hlen⟩, List.getElem?_eq_getElem hlen, ?_⟩
    have h7 : ¬ m.message.getSysExDataSize ≥ 7 := by omega
    unfold Message.getLCDBackLightSaverData readByte
    rw [if_neg (by omega), List.getElem?_eq_getElem hlen]
    simp [h7]
  · unfold Message.getTouchlessMovableFadersData
    rw [if_pos (by omega)]
  · unfold Message.getFaderTouchSensitivityData
    rw [if_pos (by omega)]
  · unfold Message.getTimeCodeBBTDisplayData
    rw [if_pos (by omega)]
  · have ht := toSizeT_of_nonneg _ h.1
    unfold Message.getAssignment7SegmentDisplayData
    rw [if_pos (by omega)]
  · unfold Message.getLCDData
    rw [if_pos (by omega)]
  · unfold Message.getVersionReplyData
    rw [if_pos (by omega)]
  · unfold Message.getChannelMeterModeData
    rw [if_pos (by omega)]
  · unfold Message.getGlobalLCDMeterModeData
    rw [if_pos (by omega)]

/-- C16 (amended) at the 5-byte payload of `createDeviceQuery`, below the minimum of every
decoder, and at the 6-byte payload `0,0,0,0,11,1` for the LCDBackLightSaver state. -/
theorem C16_short_payload_defaults_witness :
    Message.createDeviceQuery.message.getSysExDataSize = 5 ∧
    Message.createDeviceQuery.getHostConnectionQueryData = some (ByteArrayN.zero 7, 0) ∧
    Message.createDeviceQuery.getHostConnectionReplyData = some (ByteArrayN.zero 7, 0) ∧
    Message.createDeviceQuery.getHostConnectionConfirmationData = some (ByteArrayN.zero 7) ∧
    Message.createDeviceQuery.getHostConnectionErrorData = some (ByteArrayN.zero 7) ∧
    Message.createDeviceQuery.getLCDBackLightSaverData = some (0, 0) ∧
    (∃ state, ([0, 0, 0, 0, 11, 1] : List Byte)[5]? = some state ∧
      (Message.mk (MidiMessage.createSysExMessage [0, 0, 0, 0, 11, 1])).getLCDBackLightSaverData
        = some (state, 0)) ∧
    Message.createDeviceQuery.getTouchlessMovableFadersData = some 0 ∧
    Message.createDeviceQuery.getFaderTouchSensitivityData = some (0, 0) ∧
    Message.createDeviceQuery.getTimeCodeBBTDisplayData = some (none, 0) ∧
    Message.createDeviceQuery.getAssignment7SegmentDisplayData = some (ByteArrayN.zero 2) ∧
    Message.createDeviceQuery.getLCDData = some (0, none, 0) ∧
    Message.createDeviceQuery.getVersionReplyData = some (none, 0) ∧
    Message.createDeviceQuery.getChannelMeterModeData = some (0, 0) ∧
    Message.createDeviceQuery.getGlobalLCDMeterModeData = some 0 :=
  have h := C16_short_payload_defaults Message.createDeviceQuery
  have h6 := C16_short_payload_defaults
    (Message.mk (MidiMessage.createSysExMessage [0, 0, 0, 0, 11, 1]))
  ⟨by decide, h.1 (by decide), h.2.1 (by decide), h.2.2.1 (by decide), h.2.2.2.1 (by decide),
    h.2.2.2.2.1 (by decide), h6.2.2.2.2.2.1 (by decide), h.2.2.2.2.2.2.1 (by decide),
    h.2.2.2.2.2.2.2.1 (by decide), h.2.2.2.2.2.2.2.2.1 (by decide),
    h.2.2.2.2.2.2.2.2.2.1 (by decide), h.2.2.2.2.2.2.2.2.2.2.1 (by decide),
    h.2.2.2.2.2.2.2.2.2.2.2.1 (by decide), h.2.2.2.2.2.2.2.2.2.2.2.2.1 (by decide),
    h.2.2.2.2.2.2.2.2.2.2.2.2.2 (by decide)⟩

/-! ### Allow-lists and the text transcoder -/

/-- C17: for every integer `n` in 0..127, `isValidVelocityMessage n` is true if and only if `n`
is 0, 1 or 127; every velocity in 2..126 is rejected. -/
theorem C17_isValidVelocityMessage_iff (n : Int) (hn : 0 ≤ n ∧ n ≤ 127) :
    (isValidVelocityMessage n = true ↔ (n = 0 ∨ n = 1 ∨ n = 127)) ∧
    (2 ≤ n ∧ n ≤ 126 → isValidVelocityMessage n = false) := by
  have hv := castToByteEnum_val n
  rw [Int.emod_eq_of_lt hn.1 (by omega)] at hv
  have key : isValidVelocityMessage n = true ↔ (n = 0 ∨ n = 1 ∨ n = 127) := by
    unfold isValidVelocityMessage
    rw [isValidVelocityMessageTyped_iff]
    simp only [List.mem_cons, List.not_mem_nil, or_false]
    omega
  refine ⟨key, ?_⟩
  intro h
  rw [Bool.eq_false_iff, Ne, key]
  omega

/-- C17 at the velocity 127 (`On`), which is accepted. -/
theorem C17_isValidVelocityMessage_iff_witness :
    (isValidVelocityMessage 127 = true ↔ ((127 : Int) = 0 ∨ (127 : Int) = 1 ∨ (127 : Int) = 127)) ∧
    (2 ≤ (127 : Int) ∧ (127 : Int) ≤ 126 → isValidVelocityMessage 127 = false) :=
  C17_isValidVelocityMessage_iff 127 (by decide)

/-- The array `validNoteMessage` lists the integers 0, 1, ..., 116 in order. -/
theorem validNoteMessage_eq_range :
    validNoteMessage = (List.range 117).map (fun (k : Nat) => (k : Int)) := by
  decide

/-- C18: the note allow-list covers the full declared range with no gap: for every integer `n`,
`isValidNoteMessage n` is true if and only if `0 ≤ n ≤ 116` (`RECRDYCh1 = 0` through
`Relayclick = 116`). -/
theorem C18_isValidNoteMessage_iff (n : Int) :
    (isValidNoteMessage n = true ↔ (0 ≤ n ∧ n ≤ 116)) ∧
    NoteMessage.RECRDYCh1 = 0 ∧ NoteMessage.Relayclick = 116 ∧
    validNoteMessage.length = 117 := by
  refine ⟨?_, rfl, rfl, rfl⟩
  unfold isValidNoteMessage isValidNoteMessageTyped
  rw [contains_iff_mem, validNoteMessage_eq_range, List.mem_map]
  constructor
  · rintro ⟨k, hk, rfl⟩
    rw [List.mem_range] at hk
    omega
  · rintro ⟨h0, h1⟩
    refine ⟨n.toNat, ?_, ?_⟩
    · rw [List.mem_range]
      omega
    · show ((n.toNat : Nat) : Int) = n
      omega

/-- C19: for every integer `n`, `isValidCCMessage n` is true if and only if `n` is in 16..23
(V-Pots), `n = 46`, `n` is in 48..55 (V-Pot LED rings), `n = 60` (jog wheel) or `n` is in 64..76
(timecode and assignment displays); the gap neighbours 15, 24, 45, 47, 56, 59, 61, 63 and 77
are rejected. -/
theorem C19_isValidCCMessage_iff (n : Int) :
    (isValidCCMessage n = true ↔
      ((16 ≤ n ∧ n ≤ 23) ∨ n = 46 ∨ (48 ≤ n ∧ n ≤ 55) ∨ n = 60 ∨ (64 ≤ n ∧ n ≤ 76))) ∧
    (∀ g ∈ ([15, 24, 45, 47, 56, 59, 61, 63, 77] : List Int), isValidCCMessage g = false) := by
  refine ⟨?_, by decide⟩
  unfold isValidCCMessage isValidCCMessageTyped
  rw [contains_iff_mem]
  show n ∈ ([16, 17, 18, 19, 20, 21, 22, 23, 46, 48, 49, 50, 51, 52, 53, 54, 55, 60, 64, 65, 66,
      67, 68, 69, 70, 71, 72, 73, 74, 75, 76] : List Int) ↔ _
  simp only [List.mem_cons, List.not_mem_nil, or_false]
  constructor
  · intro h
    omega
  · intro h
    omega

theorem toUInt8_val (v : Int) : ((toUInt8 v).val : Int) = v % 256 :=
  castToByteEnum_val v

/-- The character codes the transcoder compares with. -/
theorem charCode_values :
    charCode 'a' = 97 ∧ charCode 'z' = 122 ∧ charCode 'A' = 65 ∧ charCode 'Z' = 90 ∧
    charCode '0' = 48 ∧ charCode '9' = 57 ∧ charCode ' ' = 32 := by
  decide

/-- C20: for every character `c` (given by its code), `charToMackie c` is `(c - 'a') + 1` when
`c` is in `'a'..'z'`, `(c - 'A') + 1` when `c` is in `'A'..'Z'` (so both cases of a letter map to
the same code in 1..26), the code of `c` itself when `c` is in `'0'..'9'`, and `0x20` (space)
for every other character. -/
theorem C20_charToMackie (c : Int) :
    (charCode 'a' ≤ c ∧ c ≤ charCode 'z' →
      ((Message.charToMackie c).val : Int) = (c - charCode 'a') + 1) ∧
    (charCode 'A' ≤ c ∧ c ≤ charCode 'Z' →
      ((Message.charToMackie c).val : Int) = (c - charCode 'A') + 1) ∧
    (charCode '0' ≤ c ∧ c ≤ charCode '9' → ((Message.charToMackie c).val : Int) = c) ∧
    (¬ (charCode 'a' ≤ c ∧ c ≤ charCode 'z') ∧ ¬ (charCode 'A' ≤ c ∧ c ≤ charCode 'Z') ∧
        ¬ (charCode '0' ≤ c ∧ c ≤ charCode '9') →
      Message.charToMackie c = 0x20) ∧
    (∀ k : Int, 0 ≤ k ∧ k ≤ 25 →
      Message.charToMackie (charCode 'a' + k) = Message.charToMackie (charCode 'A' + k) ∧
      1 ≤ (Message.charToMackie (charCode 'a' + k)).val ∧
      (Message.charToMackie (charCode 'a' + k)).val ≤ 26) ∧
    Message.charToMackie (charCode 'A') = 1 ∧ Message.charToMackie (charCode 'a') = 1 ∧
    Message.charToMackie (charCode 'z') = 26 ∧ Message.charToMackie (charCode '5') = 53 ∧
    Message.charToMackie (charCode '!') = 0x20 := by
  obtain ⟨ha, hz, hA, hZ, h0, h9, hsp⟩ := charCode_values
  have lower : ∀ x : Int, 97 ≤ x ∧ x ≤ 122 →
      ((Message.charToMackie x).val : Int) = (x - 97) + 1 := by
    intro x hx
    unfold Message.charToMackie
    rw [ha, hz, if_pos ⟨hx.1, hx.2⟩, toUInt8_val]
    omega
  have upper : ∀ x : Int, 65 ≤ x ∧ x ≤ 90 →
      ((Message.charToMackie x).val : Int) = (x - 65) + 1 := by
    intro x hx
    unfold Message.charToMackie
    rw [ha, hz, hA, hZ, if_neg (by omega), if_pos ⟨hx.1, hx.2⟩, toUInt8_val]
    omega
  rw [ha, hz, hA, hZ, h0, h9]
  refine ⟨lower c, upper c, ?_, ?_, ?_, by decide, by decide, by decide, by decide, by decide⟩
  · intro hx
    unfold Message.charToMackie
    rw [ha, hz, hA, hZ, h0, h9, if_neg (by omega), if_neg (by omega), if_pos ⟨hx.1, hx.2⟩,
      toUInt8_val]
    omega
  · rintro ⟨h1, h2, h3⟩
    unfold Message.charToMackie
    rw [ha, hz, hA, hZ, h0, h9, hsp, if_neg h1, if_neg h2, if_neg h3]
    rfl
  · intro k hk
    have hl := lower (97 + k) (by omega)
    have hu := upper (65 + k) (by omega)
    refine ⟨Fin.ext ?_, ?_, ?_⟩ <;> omega

/-- The value `mackieToChar` returns, by cases on the byte. -/
theorem mackieToChar_cases (c : Byte) :
    Message.mackieToChar c
      = if 1 ≤ c.val ∧ c.val ≤ 26 then 65 + ((c.val : Int) - 1)
        else if 48 ≤ c.val ∧ c.val ≤ 57 then (c.val : Int) else 32 := by
  obtain ⟨_, _, hA, hZ, h0, h9, hsp⟩ := charCode_values
  unfold Message.mackieToChar
  rw [hA, hZ, h0, h9, hsp]
  by_cases h1 : 1 ≤ c.val ∧ c.val ≤ 26
  · rw [if_pos h1, if_pos (by omega)]
  · rw [if_neg h1, if_neg (by omega)]
    by_cases h2 : 48 ≤ c.val ∧ c.val ≤ 57
    · rw [if_pos h2, if_pos (by omega)]
    · rw [if_neg h2, if_neg (by omega)]

/-- C21: for every byte `c` in 0..255, `mackieToChar c` is the uppercase letter
`'A' + (c - 1)` when `1 ≤ c ≤ 26`, `c` itself when `c` is an ASCII digit (48..57), and space for
every other value, including `c = 0`, `c = 27` and `c = 200`. -/
theorem C21_mackieToChar (c : Byte) :
    (1 ≤ c.val ∧ c.val ≤ 26 →
      Message.mackieToChar c = charCode 'A' + ((c.val : Int) - 1) ∧
      charCode 'A' ≤ Message.mackieToChar c ∧ Message.mackieToChar c ≤ charCode 'Z') ∧
    (48 ≤ c.val ∧ c.val ≤ 57 → Message.mackieToChar c = (c.val : Int)) ∧
    (¬ (1 ≤ c.val ∧ c.val ≤ 26) ∧ ¬ (48 ≤ c.val ∧ c.val ≤ 57) →
      Message.mackieToChar c = charCode ' ') ∧
    Message.mackieToChar 0 = charCode ' ' ∧ Message.mackieToChar 27 = charCode ' ' ∧
    Message.mackieToChar 200 = charCode ' ' ∧ Message.mackieToChar 1 = charCode 'A' ∧
    Message.mackieToChar 26 = charCode 'Z' := by
  obtain ⟨_, _, hA, hZ, _, _, hsp⟩ := charCode_values
  have hc := mackieToChar_cases c
  rw [hA, hZ, hsp]
  refine ⟨?_, ?_, ?_, by decide, by decide, by decide, by decide, by decide⟩
  · intro h
    rw [hc, if_pos h]
    omega
  · intro h
    rw [hc, if_neg (by omega), if_pos h]
  · rintro ⟨h1, h2⟩
    rw [hc, if_neg h1, if_neg h2]

/-- C22: for every character `c` (given by its code), `mackieToChar (charToMackie c)` is the
uppercase form of `c` when `c` is a letter of either case, `c` itself when `c` is a digit, and
space for every other character. -/
theorem C22_transcoder_roundtrip (c : Int) :
    (charCode 'a' ≤ c ∧ c ≤ charCode 'z' →
      Message.mackieToChar (Message.charToMackie c) = c - charCode 'a' + charCode 'A') ∧
    (charCode 'A' ≤ c ∧ c ≤ charCode 'Z' →
      Message.mackieToChar (Message.charToMackie c) = c) ∧
    (charCode '0' ≤ c ∧ c ≤ charCode '9' →
      Message.mackieToChar (Message.charToMackie c) = c) ∧
    (¬ (charCode 'a' ≤ c ∧ c ≤ charCode 'z') ∧ ¬ (charCode 'A' ≤ c ∧ c ≤ charCode 'Z') ∧
        ¬ (charCode '0' ≤ c ∧ c ≤ charCode '9') →
      Message.mackieToChar (Message.charToMackie c) = charCode ' ') ∧
    Message.mackieToChar (Message.charToMackie (charCode 'q')) = charCode 'Q' ∧
    Message.mackieToChar (Message.charToMackie (charCode 'Q')) = charCode 'Q' ∧
    Message.mackieToChar (Message.charToMackie (charCode '7')) = charCode '7' ∧
    Message.mackieToChar (Message.charToMackie (charCode '#')) = charCode ' ' := by
  obtain ⟨ha, hz, hA, hZ, h0, h9, hsp⟩ := charCode_values
  have hm := mackieToChar_cases (Message.charToMackie c)
  rw [ha, hz, hA, hZ, h0, h9, hsp]
  refine ⟨?_, ?_, ?_, ?_, by decide, by decide, by decide, by decide⟩
  · intro h
    have hv : ((Message.charToMackie c).val : Int) = (c - 97) + 1 := by
      unfold Message.charToMackie
      rw [ha, hz, if_pos h, toUInt8_val]
      omega
    rw [hm, if_pos (by omega)]
    omega
  · intro h
    have hv : ((Message.charToMackie c).val : Int) = (c - 65) + 1 := by
      unfold Message.charToMackie
      rw [ha, hz, hA, hZ, if_neg (by omega), if_pos h, toUInt8_val]
      omega
    rw [hm, if_pos (by omega)]
    omega
  · intro h
    have hv : ((Message.charToMackie c).val : Int) = c := by
      unfold Message.charToMackie
      rw [ha, hz, hA, hZ, h0, h9, if_neg (by omega), if_neg (by omega), if_pos h, toUInt8_val]
      omega
    rw [hm, if_neg (by omega), if_pos (by omega)]
    exact hv
  · rintro ⟨h1, h2, h3⟩
    have hv : Message.charToMackie c = 32 := by
      unfold Message.charToMackie
      rw [ha, hz, hA, hZ, h0, h9, hsp, if_neg h1, if_neg h2, if_neg h3]
      rfl
    rw [hv]
    decide

/-! ### Value packers -/

set_option maxRecDepth 100000 in
/-- The LCD placement round trip on every index below 56, by evaluation. -/
theorem lcdPlace_roundtrip_all :
    ∀ (lowerLine : Bool) (index : Byte), index.val ≤ 55 →
      (Message.toLCDPlace lowerLine index).val = (if lowerLine then 56 else 0) + index.val ∧
      Message.convertLCDPlace (Message.toLCDPlace lowerLine index) = (lowerLine, index) := by
  decide

/-- C23: for every line flag `lowerLine` and every character index `i` in 0..55,
`toLCDPlace lowerLine i` equals `(lowerLine ? 56 : 0) + i` and
`convertLCDPlace (toLCDPlace lowerLine i)` returns `(lowerLine, i)`; in particular
`toLCDPlace false 10 = 10`, `toLCDPlace true 10 = 66` and `convertLCDPlace 66 = (true, 10)`. -/
theorem C23_lcdPlace_roundtrip (lowerLine : Bool) (index : Byte) (hi : index.val ≤ 55) :
    (Message.toLCDPlace lowerLine index).val = (if lowerLine then 56 else 0) + index.val ∧
    Message.convertLCDPlace (Message.toLCDPlace lowerLine index) = (lowerLine, index) ∧
    Message.toLCDPlace false 10 = 10 ∧ Message.toLCDPlace true 10 = 66 ∧
    Message.convertLCDPlace 66 = (true, 10) := by
  obtain ⟨h1, h2⟩ := lcdPlace_roundtrip_all lowerLine index hi
  exact ⟨h1, h2, by decide, by decide, by decide⟩

/-- C23 at the lower line and index 10: the place is 66 and it decodes to `(true, 10)`. -/
theorem C23_lcdPlace_roundtrip_witness :
    (Message.toLCDPlace true 10).val = (if true then 56 else 0) + (10 : Byte).val ∧
    Message.convertLCDPlace (Message.toLCDPlace true 10) = (true, 10) ∧
    Message.toLCDPlace false 10 = 10 ∧ Message.toLCDPlace true 10 = 66 ∧
    Message.convertLCDPlace 66 = (true, 10) :=
  C23_lcdPlace_roundtrip true 10 (by decide)

/-- C24: for all booleans `a` (signal LED), `b` (peak hold) and `c` (LCD level meter),
`toChannelMeterMode a b c` is the 3-bit value with bit0 = `a`, bit1 = `b`, bit2 = `c` (so at
most 7), and `convertChannelMeterMode (toChannelMeterMode a b c)` returns `(a, b, c)`. -/
theorem C24_channelMeterMode_roundtrip (a b c : Bool) :
    (Message.toChannelMeterMode a b c).val = a.toNat + 2 * b.toNat + 4 * c.toNat ∧
    (Message.toChannelMeterMode a b c).val.testBit 0 = a ∧
    (Message.toChannelMeterMode a b c).val.testBit 1 = b ∧
    (Message.toChannelMeterMode a b c).val.testBit 2 = c ∧
    (Message.toChannelMeterMode a b c).val ≤ 7 ∧
    Message.convertChannelMeterMode (Message.toChannelMeterMode a b c) = (a, b, c) := by
  cases a <;> cases b <;> cases c <;> decide

set_option maxRecDepth 100000 in
/-- Re-encoding a decoded LCD place, on every byte, by evaluation. -/
theorem lcdPlace_reencode_all :
    ∀ place : Byte,
      Message.toLCDPlace (Message.convertLCDPlace place).1 (Message.convertLCDPlace place).2
        = place ∧
      (if (Message.convertLCDPlace place).1 then 56 else 0)
        + (Message.convertLCDPlace place).2.val = place.val := by
  decide

/-- The `int` packing `hi * 64 + lo` with `0 ≤ hi` and `lo` in 0..63 is undone by the
truncating `/ 64` and `% 64`. -/
theorem tdiv_tmod_64 (hi lo : Int) (hhi : 0 ≤ hi) (hlo : 0 ≤ lo ∧ lo ≤ 63) :
    (hi * 64 + lo).tdiv 64 = hi ∧ (hi * 64 + lo).tmod 64 = lo := by
  have hx : (0 : Int) ≤ hi * 64 + lo := by omega
  rw [Int.tdiv_eq_ediv hx (by decide), Int.tmod_eq_emod hx (by decide)]
  constructor <;> omega

/-- C25: for every direction `d` in `{CW = 0, CCW = 1}` and every tick count `t` in 0..63,
`toVPotValue d t = d * 64 + t` and `convertVPotValue (toVPotValue d t) = (d, t)`, and the
jog-wheel pair `toJogWheelValue` / `convertJogWheelValue` computes the same values and
satisfies the same round trip. -/
theorem C25_rotary_roundtrip (d t : Int)
    (hd : d = WheelType.CW ∨ d = WheelType.CCW) (ht : 0 ≤ t ∧ t ≤ 63) :
    Message.toVPotValue d t = d * 64 + t ∧
    Message.convertVPotValue (Message.toVPotValue d t) = (d, t) ∧
    Message.toJogWheelValue d t = d * 64 + t ∧
    Message.convertJogWheelValue (Message.toJogWheelValue d t) = (d, t) ∧
    (∀ value : Int, Message.convertJogWheelValue value = Message.convertVPotValue value) := by
  have hd0 : 0 ≤ d := by
    rcases hd with h | h <;> rw [h] <;> decide
  obtain ⟨h1, h2⟩ := tdiv_tmod_64 d t hd0 ht
  have key : ((d * 64 + t).tdiv 64, (d * 64 + t).tmod 64) = (d, t) := by
    rw [h1, h2]
  exact ⟨rfl, key, rfl, key, fun _ => rfl⟩

/-- C25 at the direction `CCW` with 3 ticks: the value is 67 and it decodes to `(CCW, 3)`. -/
theorem C25_rotary_roundtrip_witness :
    Message.toVPotValue WheelType.CCW 3 = WheelType.CCW * 64 + 3 ∧
    Message.convertVPotValue (Message.toVPotValue WheelType.CCW 3) = (WheelType.CCW, 3) ∧
    Message.toJogWheelValue WheelType.CCW 3 = WheelType.CCW * 64 + 3 ∧
    Message.convertJogWheelValue (Message.toJogWheelValue WheelType.CCW 3)
      = (WheelType.CCW, 3) ∧
    (∀ value : Int, Message.convertJogWheelValue value = Message.convertVPotValue value) :=
  C25_rotary_roundtrip WheelType.CCW 3 (Or.inr rfl) (by decide)

/-- C26: for every centre-LED flag `c`, every ring mode `m` in
`{SingleDot = 0, BoostCut = 1, Wrap = 2, Spread = 3}` and every sub-value `v` in 0..15,
`toVPotLEDRingValue c m v = c * 64 + m * 16 + v` (a value in 0..127) and
`convertVPotLEDRingValue` of it returns `(c, m, v)`. -/
theorem C26_ledRing_roundtrip (c : Bool) (m v : Int)
    (hm : m = VPotLEDRingMode.SingleDotMode ∨ m = VPotLEDRingMode.BoostCutMode ∨
      m = VPotLEDRingMode.WrapMode ∨ m = VPotLEDRingMode.SpreadMode)
    (hv : 0 ≤ v ∧ v ≤ 15) :
    Message.toVPotLEDRingValue c m v = (if c then 1 else 0) * 64 + m * 16 + v ∧
    0 ≤ Message.toVPotLEDRingValue c m v ∧ Message.toVPotLEDRingValue c m v ≤ 127 ∧
    Message.convertVPotLEDRingValue (Message.toVPotLEDRingValue c m v) = (c, m, v) := by
  have hm03 : 0 ≤ m ∧ m ≤ 3 := by
    rcases hm with h | h | h | h <;> rw [h] <;> decide
  have hval : ∀ b : Bool, Message.toVPotLEDRingValue b m v
      = (if b then 1 else 0) * 64 + m * 16 + v := by
    intro b
    cases b <;> rfl
  have hlo : (0 : Int) ≤ m * 16 + v ∧ m * 16 + v ≤ 63 := by omega
  have hsub : (m * 16 + v).tdiv 16 = m ∧ (m * 16 + v).tmod 16 = v := by
    rw [Int.tdiv_eq_ediv hlo.1 (by decide), Int.tmod_eq_emod hlo.1 (by decide)]
    constructor <;> omega
  have hdec : ∀ k : Int, 0 ≤ k →
      ((k * 64 + m * 16 + v).tdiv 64 = k ∧ ((k * 64 + m * 16 + v).tmod 64).tdiv 16 = m ∧
        (k * 64 + m * 16 + v).tmod 16 = v) := by
    intro k hk
    have h64 := tdiv_tmod_64 k (m * 16 + v) hk hlo
    rw [← Int.add_assoc] at h64
    refine ⟨h64.1, ?_, ?_⟩
    · rw [h64.2]
      exact hsub.1
    · have hx : (0 : Int) ≤ k * 64 + m * 16 + v := by omega
      rw [Int.tmod_eq_emod hx (by decide)]
      omega
  refine ⟨hval c, ?_, ?_, ?_⟩
  · rw [hval c]
    cases c <;> simp <;> omega
  · rw [hval c]
    cases c <;> simp <;> omega
  · unfold Message.convertVPotLEDRingValue
    rw [hval c]
    cases c
    · obtain ⟨h1, h2, h3⟩ := hdec 0 (by decide)
      rw [show ((if false then 1 else 0 : Int)) = 0 from rfl, h1, h2, h3]
      rfl
    · obtain ⟨h1, h2, h3⟩ := hdec 1 (by decide)
      rw [show ((if true then 1 else 0 : Int)) = 1 from rfl, h1, h2, h3]
      rfl

/-- C26 with the centre LED on, mode `Wrap` and sub-value 5: the value is 101 and it decodes to
`(true, Wrap, 5)`. -/
theorem C26_ledRing_roundtrip_witness :
    Message.toVPotLEDRingValue true VPotLEDRingMode.WrapMode 5
      = (if true then 1 else 0) * 64 + VPotLEDRingMode.WrapMode * 16 + 5 ∧
    0 ≤ Message.toVPotLEDRingValue true VPotLEDRingMode.WrapMode 5 ∧
    Message.toVPotLEDRingValue true VPotLEDRingMode.WrapMode 5 ≤ 127 ∧
    Message.convertVPotLEDRingValue (Message.toVPotLEDRingValue true VPotLEDRingMode.WrapMode 5)
      = (true, VPotLEDRingMode.WrapMode, 5) :=
  C26_ledRing_roundtrip true VPotLEDRingMode.WrapMode 5 (Or.inr (Or.inr (Or.inl rfl)))
    (by decide)

/-- C29: for every place byte `p` in 0..255, re-encoding the decoded placement gives `p` back:
if `convertLCDPlace p = (lower, i)` then `toLCDPlace lower i = p`, and the sum
`(lower ? 56 : 0) + i` is `p` itself, so it does not overflow 8 bits. -/
theorem C29_lcdPlace_reencode (place : Byte) :
    Message.toLCDPlace (Message.convertLCDPlace place).1 (Message.convertLCDPlace place).2
      = place ∧
    (if (Message.convertLCDPlace place).1 then 56 else 0)
      + (Message.convertLCDPlace place).2.val = place.val ∧
    (if (Message.convertLCDPlace place).1 then 56 else 0)
      + (Message.convertLCDPlace place).2.val ≤ 255 := by
  obtain ⟨h1, h2⟩ := lcdPlace_reencode_all place
  refine ⟨h1, h2, ?_⟩
  rw [h2]
  have := place.isLt
  omega

/-- C30: for every channel-pressure payload value `p` in 0..127, `getChannelPressureData`
decodes it to a channel in 1..8 and a value in 0..15, and `createChannelPressure` applied to
that decoded `(channel, value)` produces a channel-pressure message whose payload is `p`
again. -/
theorem C30_channelPressure_reencode (m : MidiMessage)
    (hp : 0 ≤ m.getChannelPressureValue ∧ m.getChannelPressureValue ≤ 127) :
    1 ≤ (Message.mk m).getChannelPressureData.1 ∧
    (Message.mk m).getChannelPressureData.1 ≤ 8 ∧
    0 ≤ (Message.mk m).getChannelPressureData.2 ∧
    (Message.mk m).getChannelPressureData.2 ≤ 15 ∧
    (Message.createChannelPressure (Message.mk m).getChannelPressureData.1
        (Message.mk m).getChannelPressureData.2).isChannelPressure = true ∧
    (Message.createChannelPressure (Message.mk m).getChannelPressureData.1
        (Message.mk m).getChannelPressureData.2).message.getChannelPressureValue
      = m.getChannelPressureValue := by
  have h1 : (Message.mk m).getChannelPressureData.1 = m.getChannelPressureValue / 16 + 1 := by
    show m.getChannelPressureValue.tdiv 16 + 1 = _
    rw [Int.tdiv_eq_ediv hp.1 (by decide)]
  have h2 : (Message.mk m).getChannelPressureData.2 = m.getChannelPressureValue % 16 := by
    show m.getChannelPressureValue.tmod 16 = _
    rw [Int.tmod_eq_emod hp.1 (by decide)]
  rw [h1, h2]
  refine ⟨by omega, by omega, by omega, by omega, rfl, ?_⟩
  show (m.getChannelPressureValue / 16 + 1 - 1) * 16 + m.getChannelPressureValue % 16
    = m.getChannelPressureValue
  omega

/-- C30 at the payload value 37: it decodes to channel 3, value 5 and re-encodes to 37. -/
theorem C30_channelPressure_reencode_witness :
    1 ≤ (Message.mk (MidiMessage.channelPressureChange 1 37)).getChannelPressureData.1 ∧
    (Message.mk (MidiMessage.channelPressureChange 1 37)).getChannelPressureData.1 ≤ 8 ∧
    0 ≤ (Message.mk (MidiMessage.channelPressureChange 1 37)).getChannelPressureData.2 ∧
    (Message.mk (MidiMessage.channelPressureChange 1 37)).getChannelPressureData.2 ≤ 15 ∧
    (Message.createChannelPressure
        (Message.mk (MidiMessage.channelPressureChange 1 37)).getChannelPressureData.1
        (Message.mk (MidiMessage.channelPressureChange 1 37)).getChannelPressureData.2
      ).isChannelPressure = true ∧
    (Message.createChannelPressure
        (Message.mk (MidiMessage.channelPressureChange 1 37)).getChannelPressureData.1
        (Message.mk (MidiMessage.channelPressureChange 1 37)).getChannelPressureData.2
      ).message.getChannelPressureValue
      = (MidiMessage.channelPressureChange 1 37).getChannelPressureValue :=
  C30_channelPressure_reencode (MidiMessage.channelPressureChange 1 37) (by decide)

/-! ### Reads stay inside the payload -/

theorem readByte_inside (data : List Byte) (i : Nat) (h : i < data.length) :
    ∃ b, readByte data i = some b :=
  ⟨data.get ⟨i, h⟩, List.getElem?_eq_getElem h⟩

theorem readArray_inside (data : List Byte) (off n : Nat) (h : off + n ≤ data.length) :
    ∃ a, readArray data off n = some a := by
  unfold readArray
  rw [dif_pos h]
  exact ⟨_, rfl⟩

theorem elemPtr_inside (data : List Byte) (i : Nat) (h : i ≤ data.length) :
    elemPtr data i = some (some i) := by
  unfold elemPtr
  rw [if_pos h]

/-- The three decoders that return a view return either the null view `(null, 0)` or a pointer to
payload offset 6 with a non-negative length that ends inside the payload. -/
theorem view_decoders_inside (m : Message) :
    (m.getTimeCodeBBTDisplayData = some (none, 0) ∨
      ∃ len : Int, m.getTimeCodeBBTDisplayData = some (some 6, len) ∧ 0 ≤ len ∧
        6 + len ≤ (m.message.getSysExData.length : Int)) ∧
    (m.getLCDData = some (0, none, 0) ∨
      ∃ (place : Byte) (len : Int), m.getLCDData = some (place, some 6, len) ∧ 0 ≤ len ∧
        6 + len ≤ (m.message.getSysExData.length : Int)) ∧
    (m.getVersionReplyData = some (none, 0) ∨
      ∃ len : Int, m.getVersionReplyData = some (some 6, len) ∧ 0 ≤ len ∧
        6 + len ≤ (m.message.getSysExData.length : Int)) := by
  have hsz := getSysExDataSize_cases m.message
  refine ⟨?_, ?_, ?_⟩
  · unfold Message.getTimeCodeBBTDisplayData
    split
    · exact Or.inl rfl
    · rename_i h
      rw [elemPtr_inside _ 6 (by omega)]
      exact Or.inr ⟨_, rfl, by omega, by omega⟩
  · unfold Message.getLCDData
    split
    · exact Or.inl rfl
    · rename_i h
      obtain ⟨b, hb⟩ := readByte_inside m.message.getSysExData 5 (by omega)
      rw [hb, elemPtr_inside _ 6 (by omega)]
      exact Or.inr ⟨b, _, rfl, by omega, by omega⟩
  · unfold Message.getVersionReplyData
    split
    · exact Or.inl rfl
    · rename_i h
      rw [elemPtr_inside _ 6 (by omega)]
      exact Or.inr ⟨_, rfl, by omega, by omega⟩

/-- The nine decoders whose guard is an `int` comparison return normally on every message: each
byte they read lies inside the payload. -/
theorem int_guarded_decoders_inside (m : Message) :
    m.getSysExData.isSome = true ∧
    m.getLCDBackLightSaverData.isSome = true ∧
    m.getTouchlessMovableFadersData.isSome = true ∧
    m.getFaderTouchSensitivityData.isSome = true ∧
    m.getTimeCodeBBTDisplayData.isSome = true ∧
    m.getLCDData.isSome = true ∧
    m.getVersionReplyData.isSome = true ∧
    m.getChannelMeterModeData.isSome = true ∧
    m.getGlobalLCDMeterModeData.isSome = true := by
  have hsz := getSysExDataSize_cases m.message
  obtain ⟨hv1, hv2, hv3⟩ := view_decoders_inside m
  refine ⟨?_, ?_, ?_, ?_, ?_, ?_, ?_, ?_, ?_⟩
  · unfold Message.getSysExData
    split
    · rfl
    · obtain ⟨b, hb⟩ := readByte_inside m.message.getSysExData 4 (by omega)
      rw [hb]
      rfl
  · unfold Message.getLCDBackLightSaverData
    split
    · rfl
    · obtain ⟨b, hb⟩ := readByte_inside m.message.getSysExData 5 (by omega)
      rw [hb]
      split
      · obtain ⟨t, ht⟩ := readByte_inside m.message.getSysExData 6 (by omega)
        rw [ht]
        rfl
      · rfl
  · unfold Message.getTouchlessMovableFadersData
    split
    · rfl
    · obtain ⟨b, hb⟩ := readByte_inside m.message.getSysExData 5 (by omega)
      rw [hb]
      rfl
  · unfold Message.getFaderTouchSensitivityData
    split
    · rfl
    · obtain ⟨b, hb⟩ := readByte_inside m.message.getSysExData 5 (by omega)
      obtain ⟨t, ht⟩ := readByte_inside m.message.getSysExData 6 (by omega)
      rw [hb, ht]
      rfl
  · rcases hv1 with h | ⟨_, h, _⟩ <;> rw [h] <;> rfl
  · rcases hv2 with h | ⟨_, _, h, _⟩ <;> rw [h] <;> rfl
  · rcases hv3 with h | ⟨_, h, _⟩ <;> rw [h] <;> rfl
  · unfold Message.getChannelMeterModeData
    split
    · rfl
    · obtain ⟨b, hb⟩ := readByte_inside m.message.getSysExData 5 (by omega)
      obtain ⟨t, ht⟩ := readByte_inside m.message.getSysExData 6 (by omega)
      rw [hb, ht]
      rfl
  · unfold Message.getGlobalLCDMeterModeData
    split
    · rfl
    · obtain ⟨b, hb⟩ := readByte_inside m.message.getSysExData 5 (by omega)
      rw [hb]
      rfl

/-- The five decoders whose guard contains `sizeof` return normally on every message whose
payload size is not negative. -/
theorem sizeof_guarded_decoders_inside (m : Message) (h0 : 0 ≤ m.message.getSysExDataSize) :
    m.getHostConnectionQueryData.isSome = true ∧
    m.getHostConnectionReplyData.isSome = true ∧
    m.getHostConnectionConfirmationData.isSome = true ∧
    m.getHostConnectionErrorData.isSome = true ∧
    m.getAssignment7SegmentDisplayData.isSome = true := by
  have hsz := getSysExDataSize_cases m.message
  have ht := toSizeT_of_nonneg _ h0
  refine ⟨?_, ?_, ?_, ?_, ?_⟩
  · unfold Message.getHostConnectionQueryData
    split
    · rfl
    · obtain ⟨a, ha⟩ := readArray_inside m.message.getSysExData 5 7 (by omega)
      obtain ⟨b, hb⟩ := readByte_inside m.message.getSysExData (5 + 7) (by omega)
      rw [ha, hb]
      rfl
  · unfold Message.getHostConnectionReplyData
    split
    · rfl
    · obtain ⟨a, ha⟩ := readArray_inside m.message.getSysExData 5 7 (by omega)
      obtain ⟨b, hb⟩ := readByte_inside m.message.getSysExData (5 + 7) (by omega)
      rw [ha, hb]
      rfl
  · unfold Message.getHostConnectionConfirmationData
    split
    · rfl
    · obtain ⟨a, ha⟩ := readArray_inside m.message.getSysExData 5 7 (by omega)
      rw [ha]
      rfl
  · unfold Message.getHostConnectionErrorData
    split
    · rfl
    · obtain ⟨a, ha⟩ := readArray_inside m.message.getSysExData 5 7 (by omega)
      rw [ha]
      rfl
  · unfold Message.getAssignment7SegmentDisplayData
    split
    · rfl
    · obtain ⟨a, ha⟩ := readArray_inside m.message.getSysExData 6 2 (by omega)
      rw [ha]
      rfl

/-- C27 (evaluation at the failing input): on the system-exclusive message made of the status
byte `0xF0` alone, whose payload size is -1 with no payload byte, the guards of the five
decoders that compare the size with a `sizeof` expression do not hold (-1 becomes `2^64 - 1`
in `size_t`), and `getHostConnectionQueryData`, `getHostConnectionReplyData`,
`getHostConnectionConfirmationData`, `getHostConnectionErrorData` and
`getAssignment7SegmentDisplayData` read outside the payload; the nine decoders guarded by an
`int` comparison return their default result on the same message. -/
theorem C27_lone_status_byte_reads_outside :
    MidiMessage.loneStatusByte.getSysExDataSize = -1 ∧
    MidiMessage.loneStatusByte.getSysExData = [] ∧
    toSizeT MidiMessage.loneStatusByte.getSysExDataSize = 2 ^ 64 - 1 ∧
    (Message.mk MidiMessage.loneStatusByte).getHostConnectionQueryData = none ∧
    (Message.mk MidiMessage.loneStatusByte).getHostConnectionReplyData = none ∧
    (Message.mk MidiMessage.loneStatusByte).getHostConnectionConfirmationData = none ∧
    (Message.mk MidiMessage.loneStatusByte).getHostConnectionErrorData = none ∧
    (Message.mk MidiMessage.loneStatusByte).getAssignment7SegmentDisplayData = none ∧
    (Message.mk MidiMessage.loneStatusByte).getSysExData = some 255 ∧
    (Message.mk MidiMessage.loneStatusByte).getLCDBackLightSaverData = some (0, 0) ∧
    (Message.mk MidiMessage.loneStatusByte).getTouchlessMovableFadersData = some 0 ∧
    (Message.mk MidiMessage.loneStatusByte).getFaderTouchSensitivityData = some (0, 0) ∧
    (Message.mk MidiMessage.loneStatusByte).getTimeCodeBBTDisplayData = some (none, 0) ∧
    (Message.mk MidiMessage.loneStatusByte).getLCDData = some (0, none, 0) ∧
    (Message.mk MidiMessage.loneStatusByte).getVersionReplyData = some (none, 0) ∧
    (Message.mk MidiMessage.loneStatusByte).getChannelMeterModeData = some (0, 0) ∧
    (Message.mk MidiMessage.loneStatusByte).getGlobalLCDMeterModeData = some 0 := by
  decide

/-- C28: for every message whose SysEx payload has fewer than 5 bytes, `getSysExData()` returns
the code 255 (the cast of -1), which is not a member of the allow-list, so a missing command
code is never reported as `DeviceQuery` (0) or any other valid command; and for every message
on which `isSysEx()` is true, `getSysExData()` returns a valid SysEx code. -/
theorem C28_getSysExData_code (m : Message) :
    (m.message.getSysExData.length < 5 →
      m.getSysExData = some 255 ∧ m.getSysExData ≠ some SysExMessage.DeviceQuery) ∧
    (255 : SysExMessage) ∉ validSysExMessage ∧
    isValidSysExMessageTyped 255 = false ∧ isValidSysExMessage 255 = false ∧
    (m.isSysEx = true →
      ∃ code, m.getSysExData = some code ∧ code ∈ validSysExMessage ∧
        (code.val : Int) ∈ declaredSysExCodes) := by
  refine ⟨?_, by decide, by decide, by decide, ?_⟩
  · intro h
    have hr : m.getSysExData = some 255 := by
      unfold Message.getSysExData MidiMessage.getSysExDataSize
      rw [if_pos (by omega)]
      rfl
    rw [hr]
    exact ⟨rfl, by decide⟩
  · intro h
    unfold Message.isSysEx at h
    by_cases hs : m.message.isSysEx = true
    · rw [if_pos hs] at h
      by_cases hl : m.message.getSysExDataSize ≥ 5
      · rw [dif_pos hl] at h
        have hlen : 4 < m.message.getSysExData.length := by
          unfold MidiMessage.getSysExDataSize at hl
          omega
        refine ⟨m.message.getSysExData.get ⟨4, hlen⟩, ?_, ?_, ?_⟩
        · unfold Message.getSysExData
          rw [if_neg (by omega)]
          show (readByte m.message.getSysExData 4).bind (fun code => some code) = _
          unfold readByte
          rw [List.getElem?_eq_getElem hlen]
          rfl
        · have hv := (isValidSysExMessage_byte _).mp h
          exact (contains_iff_mem _ _).mp ((isValidSysExMessageTyped_iff _).mpr hv)
        · exact (isValidSysExMessage_byte _).mp h
      · rw [dif_neg hl] at h
        exact absurd h (by decide)
    · rw [if_neg hs] at h
      exact absurd h (by decide)

/-- C28 at the default message (empty payload) and at the message built by `createReset`: the
former decodes to 255, the latter classifies as SysEx and decodes to the valid code `Reset`. -/
theorem C28_getSysExData_code_witness :
    ((Message.default true).getSysExData = some 255 ∧
      (Message.default true).getSysExData ≠ some SysExMessage.DeviceQuery) ∧
    (∃ code, Message.createReset.getSysExData = some code ∧ code ∈ validSysExMessage ∧
        (code.val : Int) ∈ declaredSysExCodes) :=
  ⟨(C28_getSysExData_code (Message.default true)).1 (by decide),
    (C28_getSysExData_code Message.createReset).2.2.2.2 (by decide)⟩

end mackieControl
